import Mathlib

/-!
# mabain: the database handle (`src/src/db.cpp`)

A shallow embedding of the handle layer of mabain, the class `DB` of `db.cpp`.

The handle layer is glue: it checks the handle's status and option bits and then
delegates to collaborators whose bodies are not part of this development
(`Dict`, `AsyncWriter`, `ResourceCollection`, the lock, the file system).  Every
operation carried out by a collaborator is recorded, in program order, in a
trace of `Call`s, and what the collaborator answers is read from an environment
that may depend on the whole history of calls (so that a concurrent writer can
make two identical lookups answer differently).

Conventions
* `int` values are `Int`; option words are their bit pattern as a `Nat`.
* `const char*` is a buffer together with an offset (`CharPtr`), so that
  `key + n` is exact pointer arithmetic.
* A pointer that may be `NULL` is an `Option`.
* A `std::string` holding a path is a `List Char`; one holding a key or a value
  is the list of its bytes.
* Calls to `Logger` and writes to `std::cerr` have no effect on the handle and
  are left out.
* The values of the `MBError` and `CONSTS` constants, the build flags
  `__LOCK_FREE__` and `__SHM_LOCK__`, and the constructor and `Clear` of
  `MBData` come from headers outside this development; they are fields of `Sys`.
-/

namespace mabain

/-! ## Constants taken from absent headers -/

/-- The error codes `MBError::*` used by `db.cpp` and listed by the taxonomy. -/
structure ErrorTable where
  SUCCESS : Int
  NOT_INITIALIZED : Int
  DB_CLOSED : Int
  NO_DB : Int
  NOT_ALLOWED : Int
  INVALID_ARG : Int
  NO_MEMORY : Int
  IN_DICT : Int
  NOT_EXIST : Int
  TRY_AGAIN : Int
  RC_SKIPPED : Int
  OUT_OF_BOUND : Int
  UNKNOWN_ERROR : Int
  deriving DecidableEq, Repr

/-- The option bits `CONSTS::*` (declared in `mabain_consts.h`, defined elsewhere). -/
structure ConstTable where
  ACCESS_MODE_READER : Nat
  ACCESS_MODE_WRITER : Nat
  ASYNC_WRITER_MODE : Nat
  deriving DecidableEq, Repr

/-- The C test `if(options & flag)`. -/
def flagSet (options flag : Nat) : Bool :=
  (options &&& flag) != 0

/-! ## Data passed across the interface -/

/-- A `const char*`: the buffer it points into and the offset inside it. -/
structure CharPtr where
  buf : List Nat
  off : Int
  deriving DecidableEq, Repr

/-- Pointer arithmetic `p + n`. -/
def CharPtr.add (p : CharPtr) (n : Int) : CharPtr :=
  { p with off := p.off + n }

/-- The `len` bytes that start at a pointer, when they lie inside its buffer. -/
def CharPtr.bytes (p : CharPtr) (len : Int) : Option (List Nat) :=
  if 0 ≤ p.off ∧ 0 ≤ len ∧ p.off + len ≤ p.buf.length then
    some ((p.buf.drop p.off.toNat).take len.toNat)
  else none

/-- The pointer `s.data()` of a `std::string`. -/
def CharPtr.ofString (s : List Nat) : CharPtr :=
  { buf := s, off := 0 }

/-- The fields of `MBData` that `db.cpp` reads or writes, and the `next` flag its
comments mention. -/
structure MBData where
  match_len : Int
  data_len : Int
  buff : Option CharPtr
  next : Bool
  deriving DecidableEq, Repr

/-- A `Dict` object: the arguments it was constructed with.  Its contents live in
the mapped files, that is, in the environment. -/
structure Dict where
  mbdir : List Char
  init_header : Bool
  data_size : Int
  options : Nat
  memcap_index : Nat
  memcap_data : Nat
  deriving DecidableEq, Repr

/-- Operations carried out by the collaborators of `DB`. -/
inductive Call where
  | gettid
  | access_F_OK (path : List Char)
  | access_R_OK (path : List Char)
  | newDict (d : Dict)
  | dictInit (d : Dict) (id : Nat)
  | dictInitShmMutex (d : Dict)
  | dictStatus (d : Dict)
  | dictGetShmLockPtrs (d : Dict)
  | lockInit
  | WrLock
  | UnLock
  | dictUpdateNumWriter (d : Dict) (delta : Int)
  | dictUpdateNumReader (d : Dict) (delta : Int)
  | dictFind (d : Dict) (key : CharPtr) (len : Int) (mdata : MBData)
  | dictFindPrefix (d : Dict) (key : CharPtr) (len : Int) (mdata : MBData)
  | dictAdd (d : Dict) (key : CharPtr) (len : Int) (mbdata : MBData) (overwrite : Bool)
  | dictRemove (d : Dict) (key : CharPtr) (len : Int)
  | dictRemoveAll (d : Dict)
  | dictFlush (d : Dict)
  | dictCount (d : Dict)
  | dictPrintStats (d : Dict)
  | dictDestroy (d : Dict)
  | deleteDict (d : Dict)
  | nanosleep
  | newAsyncWriter (identifier : Nat)
  | deleteAsyncWriter (aw : Nat)
  | awAdd (aw : Nat) (key : CharPtr) (key_len : Int) (data : Option CharPtr) (data_len : Int)
      (overwrite : Bool)
  | awRemove (aw : Nat) (key : CharPtr) (len : Int)
  | awRemoveAll (aw : Nat)
  | awCollectResource (aw : Nat) (m_index_rc_size m_data_rc_size : Int)
  | awStopAsyncThread (aw : Nat)
  | newResourceCollection (identifier : Nat)
  | rcReclaimResource (identifier : Nat) (min_index_rc_size min_data_rc_size : Int)
  deriving DecidableEq, Repr

/-- The call initialises the header: `Dict::Init`, or the construction of a `Dict`
with header initialisation requested. -/
def Call.initsHeader : Call → Bool
  | .dictInit _ _ => true
  | .newDict d => d.init_header
  | _ => false

/-- The call is a lookup `Dict::Find` or `Dict::FindPrefix`. -/
def Call.isLookup : Call → Bool
  | .dictFind _ _ _ _ => true
  | .dictFindPrefix _ _ _ _ => true
  | _ => false

/-- The call is a lookup on dictionary `d` with the key `key` and the length `len`. -/
def Call.isLookupOf (d : Dict) (key : CharPtr) (len : Int) : Call → Bool
  | .dictFind d' key' len' _ => d' = d ∧ key' = key ∧ len' = len
  | .dictFindPrefix d' key' len' _ => d' = d ∧ key' = key ∧ len' = len
  | _ => false

/-- The calls made so far, oldest first. -/
abbrev Trace := List Call

/-- What a collaborator hands back: the `int` it returns, the state it leaves in an
`MBData&` argument, the address of a new object (for `gettid` the thread id), and
the `int` it throws. -/
structure Resp where
  rval : Int
  mdata : MBData
  ptr : Nat
  thrown : Option Int
  deriving DecidableEq, Repr

/-- Everything `db.cpp` takes from outside. -/
structure Sys where
  MBError : ErrorTable
  CONSTS : ConstTable
  LOCK_FREE : Bool
  SHM_LOCK : Bool
  /-- The answer to a call, given the calls made before it. -/
  env : Trace → Call → Resp
  /-- The state of a default-constructed `MBData`. -/
  MBData_new : MBData
  /-- The method `MBData::Clear`. -/
  MBData_Clear : MBData → MBData

/-- Why a run of the model produces no result. -/
inductive Fault where
  /-- Undefined behaviour: a `NULL` pointer is dereferenced or a string is
  indexed out of range. -/
  | ub
  /-- The retry loop was cut off after the allowed number of rounds. -/
  | fuel
  deriving DecidableEq, Repr

deriving instance DecidableEq for Except

/-- The members of `DB`. -/
structure DB where
  mb_dir : List Char
  options : Nat
  status : Int
  dict : Option Dict
  async_writer : Option Nat
  identifier : Nat
  deriving DecidableEq, Repr

/-- The member `num_users` of an `AsyncWriter` (`async_writer.h`). -/
structure AsyncWriter where
  num_users : Int
  deriving DecidableEq, Repr

/-- The `AsyncWriter` objects, by address. -/
abbrev AwHeap := Nat → AsyncWriter

/-! ## Collaborators

The bodies of these methods are not among the sources.  Unless stated
otherwise a method is whatever the environment answers, and the call is
recorded. -/

/-- Perform a call: record it and read the answer of the environment. -/
def perform (S : Sys) (tr : Trace) (c : Call) : Resp × Trace :=
  (S.env tr c, tr ++ [c])

/-- The method `Dict::Find`. -/
def Dict.Find (S : Sys) (d : Dict) (key : CharPtr) (len : Int) (mdata : MBData) (tr : Trace) :
    Int × MBData × Trace :=
  let r := perform S tr (.dictFind d key len mdata)
  (r.1.rval, r.1.mdata, r.2)

/-- The method `Dict::FindPrefix`. -/
def Dict.FindPrefix (S : Sys) (d : Dict) (key : CharPtr) (len : Int) (mdata : MBData)
    (tr : Trace) : Int × MBData × Trace :=
  let r := perform S tr (.dictFindPrefix d key len mdata)
  (r.1.rval, r.1.mdata, r.2)

/-- Modelled from the spec: `Dict::Add` of `dict.cpp`, which is not among the
sources.  The spec lists the option `READER` as "enable read path, disable all
mutators" and gives `NOT_ALLOWED` among the results of `add`: a dictionary
constructed without `ACCESS_MODE_WRITER` rejects the call and changes nothing.
With `ACCESS_MODE_WRITER` the insertion is carried out by the trie engine. -/
def Dict.Add (S : Sys) (d : Dict) (key : CharPtr) (len : Int) (mbdata : MBData)
    (overwrite : Bool) (tr : Trace) : Int × MBData × Trace :=
  if !flagSet d.options S.CONSTS.ACCESS_MODE_WRITER then
    (S.MBError.NOT_ALLOWED, mbdata, tr)
  else
    let r := perform S tr (.dictAdd d key len mbdata overwrite)
    (r.1.rval, r.1.mdata, r.2)

/-- Modelled from the spec: `Dict::Remove` of `dict.cpp`, which is not among the
sources.  As for `Dict.Add`, a dictionary constructed without
`ACCESS_MODE_WRITER` rejects the call with `NOT_ALLOWED` and changes nothing. -/
def Dict.Remove (S : Sys) (d : Dict) (key : CharPtr) (len : Int) (tr : Trace) : Int × Trace :=
  if !flagSet d.options S.CONSTS.ACCESS_MODE_WRITER then
    (S.MBError.NOT_ALLOWED, tr)
  else
    let r := perform S tr (.dictRemove d key len)
    (r.1.rval, r.2)

/-- Modelled from the spec: `Dict::RemoveAll` of `dict.cpp`, which is not among the
sources.  As for `Dict.Add`, a dictionary constructed without
`ACCESS_MODE_WRITER` rejects the call with `NOT_ALLOWED` and changes nothing. -/
def Dict.RemoveAll (S : Sys) (d : Dict) (tr : Trace) : Int × Trace :=
  if !flagSet d.options S.CONSTS.ACCESS_MODE_WRITER then
    (S.MBError.NOT_ALLOWED, tr)
  else
    let r := perform S tr (.dictRemoveAll d)
    (r.1.rval, r.2)

/-- The method `Dict::Status`. -/
def Dict.Status (S : Sys) (d : Dict) (tr : Trace) : Int × Trace :=
  let r := perform S tr (.dictStatus d)
  (r.1.rval, r.2)

/-- The method `Dict::Count`. -/
def Dict.Count (S : Sys) (d : Dict) (tr : Trace) : Int × Trace :=
  let r := perform S tr (.dictCount d)
  (r.1.rval, r.2)

/-- The method `Dict::UpdateNumWriter`. -/
def Dict.UpdateNumWriter (S : Sys) (d : Dict) (delta : Int) (tr : Trace) : Int × Trace :=
  let r := perform S tr (.dictUpdateNumWriter d delta)
  (r.1.rval, r.2)

/-- The method `Dict::UpdateNumReader`; `db.cpp` ignores what it returns. -/
def Dict.UpdateNumReader (S : Sys) (d : Dict) (delta : Int) (tr : Trace) : Trace :=
  (perform S tr (.dictUpdateNumReader d delta)).2

/-- The method `AsyncWriter::Add`. -/
def AsyncWriter.Add (S : Sys) (aw : Nat) (key : CharPtr) (key_len : Int) (data : Option CharPtr)
    (data_len : Int) (overwrite : Bool) (tr : Trace) : Int × Trace :=
  let r := perform S tr (.awAdd aw key key_len data data_len overwrite)
  (r.1.rval, r.2)

/-- The method `AsyncWriter::Remove`. -/
def AsyncWriter.Remove (S : Sys) (aw : Nat) (key : CharPtr) (len : Int) (tr : Trace) :
    Int × Trace :=
  let r := perform S tr (.awRemove aw key len)
  (r.1.rval, r.2)

/-- The method `AsyncWriter::RemoveAll`. -/
def AsyncWriter.RemoveAll (S : Sys) (aw : Nat) (tr : Trace) : Int × Trace :=
  let r := perform S tr (.awRemoveAll aw)
  (r.1.rval, r.2)

/-- The method `AsyncWriter::CollectResource`. -/
def AsyncWriter.CollectResource (S : Sys) (aw : Nat) (m_index_rc_size m_data_rc_size : Int)
    (tr : Trace) : Int × Trace :=
  let r := perform S tr (.awCollectResource aw m_index_rc_size m_data_rc_size)
  (r.1.rval, r.2)

/-- The method `AsyncWriter::StopAsyncThread`. -/
def AsyncWriter.StopAsyncThread (S : Sys) (aw : Nat) (tr : Trace) : Int × Trace :=
  let r := perform S tr (.awStopAsyncThread aw)
  (r.1.rval, r.2)

/-- Modelled from the spec: `AsyncWriter::UpdateNumUsers` of `async_writer.cpp`,
which is not among the sources.  The spec says that attaching "increments a user
counter" and that `UnsetAsyncWriterPtr` "decrements": the call adds `delta` to the
member `num_users` of the object at address `aw`. -/
def AsyncWriter.UpdateNumUsers (heap : AwHeap) (aw : Nat) (delta : Int) : AwHeap :=
  Function.update heap aw { num_users := (heap aw).num_users + delta }

/-! ## The handle: `DB` -/

/-- The method `DB::Status`. -/
def DB.Status (h : DB) : Int :=
  h.status

/-- The method `DB::is_open`. -/
def DB.is_open (S : Sys) (h : DB) : Bool :=
  h.status == S.MBError.SUCCESS

/-- The method `DB::AsyncWriterEnabled`. -/
def DB.AsyncWriterEnabled (h : DB) : Bool :=
  h.async_writer != none

/-- The method `DB::UpdateNumHandlers(mode, delta)`. -/
def DB.UpdateNumHandlers (S : Sys) (h : DB) (mode : Nat) (delta : Int) (tr : Trace) :
    Except Fault (Int × Trace) :=
  let rval := S.MBError.SUCCESS
  let tr := (perform S tr .WrLock).2
  match h.dict with
  | none => .error .ub
  | some d =>
    if flagSet mode S.CONSTS.ACCESS_MODE_WRITER then
      let r := Dict.UpdateNumWriter S d delta tr
      .ok (r.1, (perform S r.2 .UnLock).2)
    else
      let tr := Dict.UpdateNumReader S d delta tr
      .ok (rval, (perform S tr .UnLock).2)

/-- The retry loop of `DB::Find` under `__LOCK_FREE__`:
`while(rval == TRY_AGAIN) { nanosleep; rval = dict->Find(key, len, mdata); }`,
cut off after `fuel` rounds. -/
def DB.Find.retry (S : Sys) (d : Dict) (key : CharPtr) (len : Int) :
    Nat → Int → MBData → Trace → Except Fault (Int × MBData × Trace)
  | fuel, rval, mdata, tr =>
    if rval = S.MBError.TRY_AGAIN then
      match fuel with
      | 0 => .error .fuel
      | fuel + 1 =>
        let tr := (perform S tr .nanosleep).2
        let r := Dict.Find S d key len mdata tr
        DB.Find.retry S d key len fuel r.1 r.2.1 r.2.2
    else .ok (rval, mdata, tr)

/-- The method `DB::Find(const char* key, int len, MBData &mdata)`: the value
returned, the state of `mdata` and the trace afterwards. -/
def DB.Find (S : Sys) (fuel : Nat) (h : DB) (key : CharPtr) (len : Int) (mdata : MBData)
    (tr : Trace) : Except Fault (Int × MBData × Trace) :=
  if h.status ≠ S.MBError.SUCCESS then
    .ok (S.MBError.NOT_INITIALIZED, mdata, tr)
  else if flagSet h.options S.CONSTS.ASYNC_WRITER_MODE then
    .ok (S.MBError.NOT_ALLOWED, mdata, tr)
  else
    match h.dict with
    | none => .error .ub
    | some d =>
      let r := Dict.Find S d key len mdata tr
      let looped :=
        if S.LOCK_FREE then DB.Find.retry S d key len fuel r.1 r.2.1 r.2.2 else .ok r
      match looped with
      | .error e => .error e
      | .ok (rval, mdata, tr) =>
        if rval = S.MBError.SUCCESS then
          .ok (rval, { mdata with match_len := len }, tr)
        else .ok (rval, mdata, tr)

/-- The method `DB::Find(const std::string &key, MBData &mdata)`. -/
def DB.Find_string (S : Sys) (fuel : Nat) (h : DB) (key : List Nat) (mdata : MBData)
    (tr : Trace) : Except Fault (Int × MBData × Trace) :=
  DB.Find S fuel h (CharPtr.ofString key) key.length mdata tr

/-- The method `DB::FindPrefix(const char* key, int len, MBData &data)`. -/
def DB.FindPrefix (S : Sys) (h : DB) (key : CharPtr) (len : Int) (data : MBData)
    (tr : Trace) : Except Fault (Int × MBData × Trace) :=
  if h.status ≠ S.MBError.SUCCESS then
    .ok (S.MBError.NOT_INITIALIZED, data, tr)
  else if flagSet h.options S.CONSTS.ASYNC_WRITER_MODE then
    .ok (S.MBError.NOT_ALLOWED, data, tr)
  else if data.match_len ≥ len then
    .ok (S.MBError.OUT_OF_BOUND, data, tr)
  else
    match h.dict with
    | none => .error .ub
    | some d =>
      .ok (Dict.FindPrefix S d (key.add data.match_len) (len - data.match_len) data tr)

/-- The retry loop of `DB::FindLongestPrefix` under `__LOCK_FREE__`:
`while(rval == TRY_AGAIN) { nanosleep; data.Clear(); rval = dict->FindPrefix(key, len, data); }`,
cut off after `fuel` rounds. -/
def DB.FindLongestPrefix.retry (S : Sys) (d : Dict) (key : CharPtr) (len : Int) :
    Nat → Int → MBData → Trace → Except Fault (Int × MBData × Trace)
  | fuel, rval, data, tr =>
    if rval = S.MBError.TRY_AGAIN then
      match fuel with
      | 0 => .error .fuel
      | fuel + 1 =>
        let tr := (perform S tr .nanosleep).2
        let data := S.MBData_Clear data
        let r := Dict.FindPrefix S d key len data tr
        DB.FindLongestPrefix.retry S d key len fuel r.1 r.2.1 r.2.2
    else .ok (rval, data, tr)

/-- The method `DB::FindLongestPrefix(const char* key, int len, MBData &data)`. -/
def DB.FindLongestPrefix (S : Sys) (fuel : Nat) (h : DB) (key : CharPtr) (len : Int)
    (data : MBData) (tr : Trace) : Except Fault (Int × MBData × Trace) :=
  if h.status ≠ S.MBError.SUCCESS then
    .ok (S.MBError.NOT_INITIALIZED, data, tr)
  else if flagSet h.options S.CONSTS.ASYNC_WRITER_MODE then
    .ok (S.MBError.NOT_ALLOWED, data, tr)
  else
    let data := { data with match_len := 0 }
    match h.dict with
    | none => .error .ub
    | some d =>
      let r := Dict.FindPrefix S d key len data tr
      if S.LOCK_FREE then DB.FindLongestPrefix.retry S d key len fuel r.1 r.2.1 r.2.2
      else .ok r

/-- The method `DB::FindLongestPrefix(const std::string &key, MBData &data)`. -/
def DB.FindLongestPrefix_string (S : Sys) (fuel : Nat) (h : DB) (key : List Nat)
    (data : MBData) (tr : Trace) : Except Fault (Int × MBData × Trace) :=
  DB.FindLongestPrefix S fuel h (CharPtr.ofString key) key.length data tr

/-- The method `DB::Add(const char* key, int len, MBData &mbdata, bool overwrite)`. -/
def DB.Add (S : Sys) (h : DB) (key : CharPtr) (len : Int) (mbdata : MBData)
    (overwrite : Bool) (tr : Trace) : Except Fault (Int × MBData × Trace) :=
  if h.status ≠ S.MBError.SUCCESS then
    .ok (S.MBError.NOT_INITIALIZED, mbdata, tr)
  else
    match h.async_writer with
    | some aw =>
      let r := AsyncWriter.Add S aw key len mbdata.buff mbdata.data_len overwrite tr
      .ok (r.1, mbdata, r.2)
    | none =>
      match h.dict with
      | none => .error .ub
      | some d => .ok (Dict.Add S d key len mbdata overwrite tr)

/-- The method
`DB::Add(const char* key, int len, const char* data, int data_len, bool overwrite)`. -/
def DB.Add_data (S : Sys) (h : DB) (key : CharPtr) (len : Int) (data : Option CharPtr)
    (data_len : Int) (overwrite : Bool) (tr : Trace) : Except Fault (Int × Trace) :=
  if h.status ≠ S.MBError.SUCCESS then
    .ok (S.MBError.NOT_INITIALIZED, tr)
  else
    match h.async_writer with
    | some aw => .ok (AsyncWriter.Add S aw key len data data_len overwrite tr)
    | none =>
      let mbdata := S.MBData_new
      let mbdata := { mbdata with data_len := data_len }
      let mbdata := { mbdata with buff := data }
      match h.dict with
      | none => .error .ub
      | some d =>
        let r := Dict.Add S d key len mbdata overwrite tr
        .ok (r.1, r.2.2)

/-- The method `DB::Add(const std::string &key, const std::string &value, bool overwrite)`. -/
def DB.Add_string (S : Sys) (h : DB) (key value : List Nat) (overwrite : Bool) (tr : Trace) :
    Except Fault (Int × Trace) :=
  DB.Add_data S h (CharPtr.ofString key) key.length (some (CharPtr.ofString value))
    value.length overwrite tr

/-- The method `DB::Remove(const char *key, int len)`. -/
def DB.Remove (S : Sys) (h : DB) (key : CharPtr) (len : Int) (tr : Trace) :
    Except Fault (Int × Trace) :=
  if h.status ≠ S.MBError.SUCCESS then
    .ok (S.MBError.NOT_INITIALIZED, tr)
  else
    match h.async_writer with
    | some aw => .ok (AsyncWriter.Remove S aw key len tr)
    | none =>
      match h.dict with
      | none => .error .ub
      | some d => .ok (Dict.Remove S d key len tr)

/-- The method `DB::Remove(const std::string &key)`. -/
def DB.Remove_string (S : Sys) (h : DB) (key : List Nat) (tr : Trace) :
    Except Fault (Int × Trace) :=
  DB.Remove S h (CharPtr.ofString key) key.length tr

/-- The method `DB::RemoveAll`. -/
def DB.RemoveAll (S : Sys) (h : DB) (tr : Trace) : Except Fault (Int × Trace) :=
  if h.status ≠ S.MBError.SUCCESS then
    .ok (-1, tr)
  else
    match h.async_writer with
    | some aw => .ok (AsyncWriter.RemoveAll S aw tr)
    | none =>
      match h.dict with
      | none => .error .ub
      | some d => .ok (Dict.RemoveAll S d tr)

/-- The method `DB::CollectResource(int min_index_rc_size, int min_data_rc_size)`.
The constructor of `ResourceCollection` and `ReclaimResource` may throw an `int`,
which is caught and returned. -/
def DB.CollectResource (S : Sys) (h : DB) (min_index_rc_size min_data_rc_size : Int)
    (tr : Trace) : Int × Trace :=
  if h.status ≠ S.MBError.SUCCESS then
    (h.status, tr)
  else
    match h.async_writer with
    | some aw => AsyncWriter.CollectResource S aw min_index_rc_size min_data_rc_size tr
    | none =>
      let rc := perform S tr (.newResourceCollection h.identifier)
      match rc.1.thrown with
      | some error => (error, rc.2)
      | none =>
        let r := perform S rc.2 (.rcReclaimResource h.identifier min_index_rc_size
          min_data_rc_size)
        match r.1.thrown with
        | some error => (error, r.2)
        | none => (S.MBError.SUCCESS, r.2)

/-- The method `DB::Count`. -/
def DB.Count (S : Sys) (h : DB) (tr : Trace) : Except Fault (Int × Trace) :=
  if h.status ≠ S.MBError.SUCCESS then
    .ok (-1, tr)
  else
    match h.dict with
    | none => .error .ub
    | some d => .ok (Dict.Count S d tr)

/-- The second half of `DB::Close`, from `if(dict != NULL)` on; `rval` is the local
of that name. -/
def DB.Close.teardown (S : Sys) (rval : Int) (h : DB) (tr : Trace) :
    Except Fault (Int × DB × Trace) :=
  match h.dict with
  | some d =>
    let tr :=
      if flagSet h.options S.CONSTS.ACCESS_MODE_WRITER then (perform S tr (.dictPrintStats d)).2
      else tr
    match DB.UpdateNumHandlers S h h.options (-1) tr with
    | .error e => .error e
    | .ok u =>
      let tr := (perform S u.2 (.dictDestroy d)).2
      let tr := (perform S tr (.deleteDict d)).2
      .ok (rval, { h with dict := none, status := S.MBError.DB_CLOSED }, tr)
  | none =>
    .ok (h.status, { h with status := S.MBError.DB_CLOSED }, tr)

/-- The method `DB::Close`: the value returned, the handle and the trace
afterwards. -/
def DB.Close (S : Sys) (h : DB) (tr : Trace) : Except Fault (Int × DB × Trace) :=
  let rval := S.MBError.SUCCESS
  match h.async_writer with
  | some aw =>
    if flagSet h.options S.CONSTS.ACCESS_MODE_WRITER then
      let r := AsyncWriter.StopAsyncThread S aw tr
      if r.1 ≠ S.MBError.SUCCESS then
        .ok (r.1, h, r.2)
      else
        let tr := (perform S r.2 (.deleteAsyncWriter aw)).2
        DB.Close.teardown S r.1 { h with async_writer := none } tr
    else DB.Close.teardown S rval h tr
  | none => DB.Close.teardown S rval h tr

/-- The second half of the constructor, from `dict = new Dict(...)` on;
`db_path_tmp` and `init_header` are the locals of those names. -/
def DB.new.create (S : Sys) (h : DB) (db_path_tmp : List Char) (init_header : Bool)
    (db_options : Nat) (memcap_index memcap_data : Nat) (data_size : Int) (tr : Trace) :
    Except Fault (DB × Trace) :=
  let d : Dict :=
    { mbdir := db_path_tmp, init_header := init_header, data_size := data_size,
      options := db_options, memcap_index := memcap_index, memcap_data := memcap_data }
  let tr := (perform S tr (.newDict d)).2
  let h := { h with dict := some d }
  let tr :=
    if flagSet db_options S.CONSTS.ACCESS_MODE_WRITER && init_header then
      let tr := (perform S tr (.dictInit d h.identifier)).2
      if S.SHM_LOCK then (perform S tr (.dictInitShmMutex d)).2 else tr
    else tr
  let st := Dict.Status S d tr
  if st.1 ≠ S.MBError.SUCCESS then
    .ok (h, st.2)
  else
    let tr := (perform S st.2 (.dictGetShmLockPtrs d)).2
    let tr := (perform S tr .lockInit).2
    match DB.UpdateNumHandlers S h db_options 1 tr with
    | .error e => .error e
    | .ok u =>
      let h := { h with status := u.1 }
      if h.status ≠ S.MBError.SUCCESS then
        .ok (h, u.2)
      else if flagSet db_options S.CONSTS.ACCESS_MODE_WRITER then
        if flagSet db_options S.CONSTS.ASYNC_WRITER_MODE then
          let a := perform S u.2 (.newAsyncWriter h.identifier)
          .ok ({ h with async_writer := some a.1.ptr, status := S.MBError.SUCCESS }, a.2)
        else .ok ({ h with status := S.MBError.SUCCESS }, u.2)
      else .ok ({ h with status := S.MBError.SUCCESS }, u.2)

/-- The middle of the constructor: the check of the directory and of the header
file `_mabain_h`; `h` is the handle with its identifier set. -/
def DB.new.check (S : Sys) (h : DB) (db_path : List Char) (db_options : Nat)
    (memcap_index memcap_data : Nat) (data_size : Int) (tr : Trace) :
    Except Fault (DB × Trace) :=
  -- Check if the DB directory exist with proper permission
  let dir := perform S tr (.access_F_OK db_path)
  if dir.1.rval ≠ 0 then
    .ok ({ h with status := S.MBError.NO_DB }, dir.2)
  else
    match db_path.getLast? with
    | none => .error .ub
    | some last =>
      let db_path_tmp := if last ≠ '/' then db_path ++ "/".toList else db_path
      -- Check if DB exist
      let header_file := db_path_tmp ++ "_mabain_h".toList
      let hdr := perform S dir.2 (.access_R_OK header_file)
      if hdr.1.rval ≠ 0 then
        if flagSet db_options S.CONSTS.ACCESS_MODE_WRITER then
          DB.new.create S h db_path_tmp true db_options memcap_index memcap_data data_size hdr.2
        else
          .ok ({ h with status := S.MBError.NO_DB }, hdr.2)
      else
        DB.new.create S h db_path_tmp false db_options memcap_index memcap_data data_size hdr.2

/-- The constructor `DB::DB(db_path, db_options, memcap_index, memcap_data, data_size, id)`:
the handle it leaves and the trace afterwards. -/
def DB.new (S : Sys) (db_path : List Char) (db_options : Nat) (memcap_index memcap_data : Nat)
    (data_size : Int) (id : Nat) (tr : Trace) : Except Fault (DB × Trace) :=
  let h : DB :=
    { mb_dir := db_path, options := db_options, status := S.MBError.NOT_INITIALIZED,
      dict := none, async_writer := none, identifier := 0 }
  -- If id not given, use thread ID
  if id = 0 then
    let tid := perform S tr .gettid
    DB.new.check S { h with identifier := tid.1.ptr } db_path db_options memcap_index
      memcap_data data_size tid.2
  else
    DB.new.check S { h with identifier := id } db_path db_options memcap_index memcap_data
      data_size tr

/-- The method `DB::SetAsyncWriterPtr(DB *db_writer)`: the value returned, the
handle and the `AsyncWriter` objects afterwards.  The three tests of the last
`if` all lead to `INVALID_ARG`; the pointer `db_writer->async_writer` is looked at
first here, so that its address is at hand afterwards. -/
def DB.SetAsyncWriterPtr (S : Sys) (h : DB) (db_writer : Option DB) (heap : AwHeap) :
    Int × DB × AwHeap :=
  match db_writer with
  | none => (S.MBError.INVALID_ARG, h, heap)
  | some w =>
    if flagSet h.options S.CONSTS.ACCESS_MODE_WRITER then
      (S.MBError.NOT_ALLOWED, h, heap)
    else if w.mb_dir ≠ h.mb_dir then
      (S.MBError.INVALID_ARG, h, heap)
    else
      match w.async_writer with
      | none => (S.MBError.INVALID_ARG, h, heap)
      | some aw =>
        if !flagSet w.options S.CONSTS.ACCESS_MODE_WRITER ||
            !flagSet w.options S.CONSTS.ASYNC_WRITER_MODE then
          (S.MBError.INVALID_ARG, h, heap)
        else
          (S.MBError.SUCCESS, { h with async_writer := some aw },
            AsyncWriter.UpdateNumUsers heap aw 1)

/-- The method `DB::UnsetAsyncWriterPtr(DB *db_writer)`, with the tests in the same
order as in `DB.SetAsyncWriterPtr`. -/
def DB.UnsetAsyncWriterPtr (S : Sys) (h : DB) (db_writer : Option DB) (heap : AwHeap) :
    Int × DB × AwHeap :=
  match db_writer with
  | none => (S.MBError.INVALID_ARG, h, heap)
  | some w =>
    if flagSet h.options S.CONSTS.ACCESS_MODE_WRITER then
      (S.MBError.NOT_ALLOWED, h, heap)
    else if w.mb_dir ≠ h.mb_dir then
      (S.MBError.INVALID_ARG, h, heap)
    else
      match w.async_writer with
      | none => (S.MBError.INVALID_ARG, h, heap)
      | some aw =>
        if !flagSet w.options S.CONSTS.ACCESS_MODE_WRITER ||
            !flagSet w.options S.CONSTS.ASYNC_WRITER_MODE then
          (S.MBError.INVALID_ARG, h, heap)
        else
          (S.MBError.SUCCESS, { h with async_writer := none },
            AsyncWriter.UpdateNumUsers heap aw (-1))

/-- The path of the header file as the constructor builds it from `db_path`. -/
def headerFile (db_path : List Char) : List Char :=
  (if db_path.getLast? = some '/' then db_path else db_path ++ "/".toList) ++ "_mabain_h".toList

/-! ## The runs of the retry loops -/

/-- One round of the retry loop of `DB::Find`, from the state `(rval, mdata, trace)`
the previous attempt left: sleep, then look the key up again with the same
buffer. -/
def DB.Find.again (S : Sys) (d : Dict) (key : CharPtr) (len : Int)
    (p : Int × MBData × Trace) : Int × MBData × Trace :=
  Dict.Find S d key len p.2.1 (perform S p.2.2 .nanosleep).2

/-- The run of dictionary results that `DB::Find` sees: the result, the buffer and
the trace after attempt `i`, attempt `0` being the first lookup. -/
def DB.Find.attempt (S : Sys) (d : Dict) (key : CharPtr) (len : Int) (mdata : MBData)
    (tr : Trace) (i : Nat) : Int × MBData × Trace :=
  (DB.Find.again S d key len)^[i] (Dict.Find S d key len mdata tr)

/-- One round of the retry loop of `DB::FindLongestPrefix`: sleep, clear the
buffer, then search again. -/
def DB.FindLongestPrefix.again (S : Sys) (d : Dict) (key : CharPtr) (len : Int)
    (p : Int × MBData × Trace) : Int × MBData × Trace :=
  Dict.FindPrefix S d key len (S.MBData_Clear p.2.1) (perform S p.2.2 .nanosleep).2

/-- The run of dictionary results that `DB::FindLongestPrefix` sees. -/
def DB.FindLongestPrefix.attempt (S : Sys) (d : Dict) (key : CharPtr) (len : Int)
    (data : MBData) (tr : Trace) (i : Nat) : Int × MBData × Trace :=
  (DB.FindLongestPrefix.again S d key len)^[i]
    (Dict.FindPrefix S d key len { data with match_len := 0 } tr)

/-- The calls of the first `n` retries of `DB::Find`: before each retried lookup a
sleep, and the lookup is given the buffer as the attempt before left it. -/
def DB.Find.retried (S : Sys) (d : Dict) (key : CharPtr) (len : Int) (mdata : MBData)
    (tr : Trace) : Nat → List Call
  | 0 => []
  | n + 1 =>
    DB.Find.retried S d key len mdata tr n ++
      [.nanosleep, .dictFind d key len (DB.Find.attempt S d key len mdata tr n).2.1]

/-- The calls of the first `n` retries of `DB::FindLongestPrefix`: before each
retried lookup a sleep, and the lookup is given the cleared buffer of the attempt
before. -/
def DB.FindLongestPrefix.retried (S : Sys) (d : Dict) (key : CharPtr) (len : Int)
    (data : MBData) (tr : Trace) : Nat → List Call
  | 0 => []
  | n + 1 =>
    DB.FindLongestPrefix.retried S d key len data tr n ++
      [.nanosleep, .dictFindPrefix d key len
        (S.MBData_Clear (DB.FindLongestPrefix.attempt S d key len data tr n).2.1)]

/-! ## Several readers attached to one writer -/

/-- A call that reader number `i` issues against the writer handle. -/
inductive PtrCall where
  | set (i : Nat)
  | unset (i : Nat)
  deriving DecidableEq, Repr

/-- Some reader handles and the `AsyncWriter` objects they may point to. -/
structure Pool where
  readers : List DB
  heap : AwHeap

/-- Reader `i` calls `SetAsyncWriterPtr(w)` or `UnsetAsyncWriterPtr(w)`; a number
that names no reader does nothing. -/
def Pool.step (S : Sys) (w : DB) (p : Pool) : PtrCall → Pool
  | .set i =>
    match p.readers[i]? with
    | none => p
    | some r =>
      { readers := p.readers.set i (DB.SetAsyncWriterPtr S r (some w) p.heap).2.1,
        heap := (DB.SetAsyncWriterPtr S r (some w) p.heap).2.2 }
  | .unset i =>
    match p.readers[i]? with
    | none => p
    | some r =>
      { readers := p.readers.set i (DB.UnsetAsyncWriterPtr S r (some w) p.heap).2.1,
        heap := (DB.UnsetAsyncWriterPtr S r (some w) p.heap).2.2 }

/-- A sequence of calls, in order. -/
def Pool.run (S : Sys) (w : DB) (p : Pool) (calls : List PtrCall) : Pool :=
  calls.foldl (Pool.step S w) p

/-- The number of readers whose async-writer pointer is `aw`. -/
def attached (aw : Nat) (readers : List DB) : Nat :=
  readers.countP (fun r => r.async_writer == some aw)

/-- The call keeps to the protocol of the example program: a reader sets the
pointer only while it has none, and unsets it only while it points to `aw`. -/
def PtrCall.paired (aw : Nat) (p : Pool) : PtrCall → Bool
  | .set i =>
    match p.readers[i]? with
    | none => true
    | some r => r.async_writer == none
  | .unset i =>
    match p.readers[i]? with
    | none => true
    | some r => r.async_writer == some aw

/-- Every call of the sequence keeps to the protocol at the time it is issued. -/
def Pool.paired (S : Sys) (w : DB) (aw : Nat) : Pool → List PtrCall → Bool
  | _, [] => true
  | p, c :: calls => c.paired aw p && Pool.paired S w aw (Pool.step S w p c) calls

/-! ## Concrete instances -/

/-- Modelled from the spec: the enumeration `MBError` of `error.h`, which is not
among the sources.  The codes of the spec's taxonomy, pairwise distinct, numbered
in the order in which the spec lists them. -/
def stdErrors : ErrorTable :=
  { SUCCESS := 0, NOT_INITIALIZED := 1, DB_CLOSED := 2, NO_DB := 3, NOT_ALLOWED := 4,
    INVALID_ARG := 5, NO_MEMORY := 6, IN_DICT := 7, NOT_EXIST := 8, TRY_AGAIN := 9,
    RC_SKIPPED := 10, OUT_OF_BOUND := 11, UNKNOWN_ERROR := 12 }

/-- Modelled from the spec: the option bits of `mabain_consts.cpp`, which is not
among the sources.  "options are a bit set drawn from READER, WRITER,
ASYNC_WRITER_MODE": `READER` is the absence of `WRITER`, and `WRITER` and
`ASYNC_WRITER_MODE` are two different bits. -/
def stdConsts : ConstTable :=
  { ACCESS_MODE_READER := 0, ACCESS_MODE_WRITER := 1, ASYNC_WRITER_MODE := 2 }

/-- An empty result buffer. -/
def emptyData : MBData :=
  { match_len := 0, data_len := 0, buff := none, next := false }

/-- An environment in which every call returns `0`, throws nothing and leaves an
`MBData&` argument as it found it. -/
def calmEnv : Trace → Call → Resp
  | _, .dictFind _ _ _ m => { rval := 0, mdata := m, ptr := 7, thrown := none }
  | _, .dictFindPrefix _ _ _ m => { rval := 0, mdata := m, ptr := 7, thrown := none }
  | _, .dictAdd _ _ _ m _ => { rval := 0, mdata := m, ptr := 7, thrown := none }
  | _, _ => { rval := 0, mdata := emptyData, ptr := 7, thrown := none }

/-- A lock-free build in the calm environment. -/
def calmSys : Sys :=
  { MBError := stdErrors, CONSTS := stdConsts, LOCK_FREE := true, SHM_LOCK := false,
    env := calmEnv, MBData_new := emptyData, MBData_Clear := fun _ => emptyData }

/-- An environment for a directory that holds no database yet: the header file is
not readable, every other call returns `0`. -/
def freshEnv : Trace → Call → Resp
  | _, .access_R_OK _ => { rval := -1, mdata := emptyData, ptr := 7, thrown := none }
  | tr, c => calmEnv tr c

/-- A lock-free build on a directory that holds no database yet. -/
def freshSys : Sys :=
  { calmSys with env := freshEnv }

/-- The directory used by the example program. -/
def testDir : List Char := "/var/tmp/mabain_test/".toList

/-- The dictionary of a handle on `testDir` opened with `options`. -/
def testDict (options : Nat) : Dict :=
  { mbdir := testDir, init_header := false, data_size := 0, options := options,
    memcap_index := 64, memcap_data := 64 }

/-- An open handle on `testDir` with the given options and async writer. -/
def openHandle (options : Nat) (aw : Option Nat) : DB :=
  { mb_dir := testDir, options := options, status := 0, dict := some (testDict options),
    async_writer := aw, identifier := 1 }

/-- The key `"abc"`. -/
def keyAbc : CharPtr := CharPtr.ofString [97, 98, 99]

/-- A handle as `Close` leaves it: no dictionary, status `DB_CLOSED`. -/
def closedHandle : DB :=
  { mb_dir := testDir, options := 1, status := stdErrors.DB_CLOSED, dict := none,
    async_writer := none, identifier := 1 }

/-- One reader handle, not attached, and user counts all zero. -/
def pool0 : Pool :=
  { readers := [openHandle 0 none], heap := fun _ => { num_users := 0 } }

/-- What a lookup answers when it meets an edge that the writer is changing: `TRY_AGAIN`,
and a buffer that already holds five bytes of scratch data. -/
def abortedLookup (m : MBData) : Resp :=
  { rval := stdErrors.TRY_AGAIN,
    mdata := { m with data_len := 5, buff := some (CharPtr.ofString [1, 2, 3, 4, 5]) },
    ptr := 7, thrown := none }

/-- An environment in which the first call of a history, when it is a lookup, is
aborted with `TRY_AGAIN`; every other call is answered as in `calmEnv`. -/
def busyEnv : Trace → Call → Resp
  | [], .dictFind _ _ _ m => abortedLookup m
  | [], .dictFindPrefix _ _ _ m => abortedLookup m
  | tr, c => calmEnv tr c

/-- A lock-free build in the busy environment. -/
def busySys : Sys :=
  { calmSys with env := busyEnv }

/-- An environment in which the dictionary reports `NO_MEMORY` as its status. -/
def badStatusEnv : Trace → Call → Resp
  | _, .dictStatus _ => { rval := stdErrors.NO_MEMORY, mdata := emptyData, ptr := 7, thrown := none }
  | tr, c => calmEnv tr c

/-- A build whose dictionary fails to initialise. -/
def badStatusSys : Sys :=
  { calmSys with env := badStatusEnv }

/-- An environment in which the dictionary rejects the registration of a writer. -/
def rejectEnv : Trace → Call → Resp
  | _, .dictUpdateNumWriter _ 1 =>
    { rval := stdErrors.NOT_ALLOWED, mdata := emptyData, ptr := 7, thrown := none }
  | tr, c => calmEnv tr c

/-- A build whose dictionary already has a writer. -/
def rejectSys : Sys :=
  { calmSys with env := rejectEnv }

/-- The reader handle that the constructor leaves when the dictionary reports a bad
status: not initialised, but with a dictionary. -/
def failedReader : DB :=
  { mb_dir := testDir, options := 0, status := stdErrors.NOT_INITIALIZED,
    dict := some (testDict 0), async_writer := none, identifier := 1 }

/-- The writer handle that the constructor leaves when its registration is
rejected: the status is the rejection, and it has a dictionary. -/
def rejectedWriter : DB :=
  { mb_dir := testDir, options := 1, status := stdErrors.NOT_ALLOWED,
    dict := some (testDict 1), async_writer := none, identifier := 1 }

/-- The calls of a constructor that gets as far as asking the dictionary for its
status. -/
def openingCalls (options : Nat) : Trace :=
  [.access_F_OK testDir, .access_R_OK (headerFile testDir), .newDict (testDict options),
    .dictStatus (testDict options)]

/-! ## Basic facts about the retry loops -/

/-- The retry loop of `Find` is not entered when the first answer is final. -/
theorem find_retry_done (S : Sys) (d : Dict) (key : CharPtr) (len : Int) (fuel : Nat)
    (rval : Int) (mdata : MBData) (tr : Trace) (hr : rval ≠ S.MBError.TRY_AGAIN) :
    DB.Find.retry S d key len fuel rval mdata tr = .ok (rval, mdata, tr) := by
  cases fuel <;> simp [DB.Find.retry, hr]

/-- The retry loop of `FindLongestPrefix` is not entered when the first answer is
final. -/
theorem findLongestPrefix_retry_done (S : Sys) (d : Dict) (key : CharPtr) (len : Int)
    (fuel : Nat) (rval : Int) (data : MBData) (tr : Trace) (hr : rval ≠ S.MBError.TRY_AGAIN) :
    DB.FindLongestPrefix.retry S d key len fuel rval data tr = .ok (rval, data, tr) := by
  cases fuel <;> simp [DB.FindLongestPrefix.retry, hr]

/-! ## What the constructor establishes -/

/-- The method `UpdateNumHandlers` on a handle that has a dictionary: it takes the
lock, updates the writer or the reader count and releases the lock. -/
theorem updateNumHandlers_some (S : Sys) (h : DB) (d : Dict) (mode : Nat) (delta : Int)
    (tr : Trace) (hd : h.dict = some d) :
    DB.UpdateNumHandlers S h mode delta tr =
      .ok (if flagSet mode S.CONSTS.ACCESS_MODE_WRITER then
          ((S.env (tr ++ [.WrLock]) (.dictUpdateNumWriter d delta)).rval,
            tr ++ [.WrLock, .dictUpdateNumWriter d delta, .UnLock])
        else (S.MBError.SUCCESS, tr ++ [.WrLock, .dictUpdateNumReader d delta, .UnLock])) := by
  simp only [DB.UpdateNumHandlers, hd, Dict.UpdateNumWriter, Dict.UpdateNumReader, perform]
  split <;> simp

/-- The same fact with the handle written out field by field. -/
theorem updateNumHandlers_mk (S : Sys) (a : List Char) (b : Nat) (c : Int) (d : Dict)
    (e : Option Nat) (f : Nat) (mode : Nat) (delta : Int) (tr : Trace) :
    DB.UpdateNumHandlers S
      { mb_dir := a, options := b, status := c, dict := some d, async_writer := e, identifier := f }
      mode delta tr =
      .ok (if flagSet mode S.CONSTS.ACCESS_MODE_WRITER then
          ((S.env (tr ++ [.WrLock]) (.dictUpdateNumWriter d delta)).rval,
            tr ++ [.WrLock, .dictUpdateNumWriter d delta, .UnLock])
        else (S.MBError.SUCCESS, tr ++ [.WrLock, .dictUpdateNumReader d delta, .UnLock])) :=
  updateNumHandlers_some S _ d mode delta tr rfl

/-- Whatever handle the second half of the constructor leaves has a dictionary
that was constructed with the options of the handle. -/
theorem create_has_dict (S : Sys) (h0 : DB) (db_path_tmp : List Char) (init_header : Bool)
    (db_options memcap_index memcap_data : Nat) (data_size : Int) (tr : Trace) (h : DB)
    (tr' : Trace)
    (hnew : DB.new.create S h0 db_path_tmp init_header db_options memcap_index memcap_data
      data_size tr = .ok (h, tr'))
    (h0o : h0.options = db_options) :
    ∃ d, h.dict = some d ∧ d.options = h.options ∧ h.options = db_options ∧
      h.mb_dir = h0.mb_dir := by
  simp only [DB.new.create, updateNumHandlers_mk] at hnew
  split_ifs at hnew <;> simp only [Except.ok.injEq, Prod.mk.injEq] at hnew <;>
    obtain ⟨rfl, -⟩ := hnew <;> simp_all

/-- A handle that the directory and header check leaves open has a dictionary,
constructed with the options of the handle. -/
theorem check_open_has_dict (S : Sys) (h0 : DB) (db_path : List Char) (db_options : Nat)
    (memcap_index memcap_data : Nat) (data_size : Int) (tr : Trace) (h : DB) (tr' : Trace)
    (hnew : DB.new.check S h0 db_path db_options memcap_index memcap_data data_size tr =
      .ok (h, tr'))
    (h0o : h0.options = db_options)
    (hcode : S.MBError.NO_DB ≠ S.MBError.SUCCESS)
    (hopen : h.status = S.MBError.SUCCESS) :
    ∃ d, h.dict = some d ∧ d.options = h.options ∧ h.options = db_options ∧
      h.mb_dir = h0.mb_dir := by
  simp only [DB.new.check] at hnew
  repeat' split at hnew
  all_goals first
    | exact create_has_dict S _ _ _ _ _ _ _ _ h tr' hnew h0o
    | (simp only [Except.ok.injEq, Prod.mk.injEq] at hnew
       obtain ⟨rfl, -⟩ := hnew
       exact absurd hopen hcode)
    | cases hnew

/-- A handle that the constructor leaves open has a dictionary, constructed with
the options of the handle. -/
theorem new_open_has_dict (S : Sys) (db_path : List Char) (db_options : Nat)
    (memcap_index memcap_data : Nat) (data_size : Int) (id : Nat) (tr : Trace) (h : DB)
    (tr' : Trace)
    (hnew : DB.new S db_path db_options memcap_index memcap_data data_size id tr = .ok (h, tr'))
    (hcode : S.MBError.NO_DB ≠ S.MBError.SUCCESS)
    (hopen : h.status = S.MBError.SUCCESS) :
    ∃ d, h.dict = some d ∧ d.options = h.options ∧ h.options = db_options ∧
      h.mb_dir = db_path := by
  simp only [DB.new] at hnew
  split at hnew
  · exact check_open_has_dict S _ _ _ _ _ _ _ h tr' hnew rfl hcode hopen
  · exact check_open_has_dict S _ _ _ _ _ _ _ h tr' hnew rfl hcode hopen

/-- The handles used in the examples are the ones the constructor leaves in the
calm environment: a reader, a synchronous writer and an async writer on the test
directory. -/
theorem openHandle_constructed :
    (DB.new calmSys testDir 0 64 64 0 1 []).map Prod.fst = .ok (openHandle 0 none) ∧
    (DB.new calmSys testDir 1 64 64 0 1 []).map Prod.fst = .ok (openHandle 1 none) ∧
    (DB.new calmSys testDir 3 64 64 0 1 []).map Prod.fst = .ok (openHandle 3 (some 7)) := by
  decide
/-! ## Lookups and mutators behind the status and mode guards -/

/-- C1: on an open handle whose options include `ASYNC_WRITER_MODE`, `Find`,
`FindPrefix` and `FindLongestPrefix` return `NOT_ALLOWED` for every key and
buffer, make no call at all (the trace is the one they were given, so no
dictionary lookup happens) and hand back the buffer as it was, `match_len`
included. -/
theorem find_not_allowed_in_async_writer_mode (S : Sys) (fuel : Nat) (h : DB) (key : CharPtr)
    (len : Int) (mdata : MBData) (tr : Trace)
    (hopen : h.status = S.MBError.SUCCESS)
    (hasync : flagSet h.options S.CONSTS.ASYNC_WRITER_MODE = true) :
    DB.Find S fuel h key len mdata tr = .ok (S.MBError.NOT_ALLOWED, mdata, tr) ∧
    DB.FindPrefix S h key len mdata tr = .ok (S.MBError.NOT_ALLOWED, mdata, tr) ∧
    DB.FindLongestPrefix S fuel h key len mdata tr = .ok (S.MBError.NOT_ALLOWED, mdata, tr) := by
  refine ⟨?_, ?_, ?_⟩
  · simp [DB.Find, hopen, hasync]
  · simp [DB.FindPrefix, hopen, hasync]
  · simp [DB.FindLongestPrefix, hopen, hasync]

/-- Witness for C1: an open writer handle in async mode, key `"abc"`. -/
theorem find_not_allowed_in_async_writer_mode_witness :
    (openHandle 3 (some 7)).status = calmSys.MBError.SUCCESS ∧
    flagSet (openHandle 3 (some 7)).options calmSys.CONSTS.ASYNC_WRITER_MODE = true ∧
    (DB.Find calmSys 5 (openHandle 3 (some 7)) keyAbc 3 emptyData [] =
        .ok (calmSys.MBError.NOT_ALLOWED, emptyData, []) ∧
      DB.FindPrefix calmSys (openHandle 3 (some 7)) keyAbc 3 emptyData [] =
        .ok (calmSys.MBError.NOT_ALLOWED, emptyData, []) ∧
      DB.FindLongestPrefix calmSys 5 (openHandle 3 (some 7)) keyAbc 3 emptyData [] =
        .ok (calmSys.MBError.NOT_ALLOWED, emptyData, [])) :=
  ⟨by decide, by decide,
    find_not_allowed_in_async_writer_mode calmSys 5 (openHandle 3 (some 7)) keyAbc 3 emptyData []
      (by decide) (by decide)⟩

/-- C2, as stated, fails: on an open handle with `WRITER` and without
`ASYNC_WRITER_MODE` the three lookups go to the dictionary (the call is in the
trace) and return its answer, here `SUCCESS`, not `NOT_ALLOWED`. -/
theorem find_on_sync_writer_counterexample :
    (openHandle 1 none).status = calmSys.MBError.SUCCESS ∧
    flagSet (openHandle 1 none).options calmSys.CONSTS.ACCESS_MODE_WRITER = true ∧
    DB.Find calmSys 5 (openHandle 1 none) keyAbc 3 emptyData [] =
      .ok (0, { emptyData with match_len := 3 }, [.dictFind (testDict 1) keyAbc 3 emptyData]) ∧
    DB.FindPrefix calmSys (openHandle 1 none) keyAbc 3 emptyData [] =
      .ok (0, emptyData, [.dictFindPrefix (testDict 1) keyAbc 3 emptyData]) ∧
    DB.FindLongestPrefix calmSys 5 (openHandle 1 none) keyAbc 3 emptyData [] =
      .ok (0, emptyData, [.dictFindPrefix (testDict 1) keyAbc 3 emptyData]) ∧
    DB.Find calmSys 5 (openHandle 1 none) keyAbc 3 emptyData [] ≠
      .ok (calmSys.MBError.NOT_ALLOWED, emptyData, []) := by
  decide

/-- C2, amended: on an open handle whose options include `WRITER` the lookups
are forbidden exactly when `ASYNC_WRITER_MODE` is set too.  With
`ASYNC_WRITER_MODE` all three return `NOT_ALLOWED` without a call.  Without it
each performs the dictionary lookup and returns the dictionary's answer: `Find`
and `FindLongestPrefix` whenever that answer is not `TRY_AGAIN`, `FindPrefix`
whenever `match_len < len`. -/
theorem find_on_writer_handle (S : Sys) (fuel : Nat) (h : DB) (d : Dict) (key : CharPtr)
    (len : Int) (mdata : MBData) (tr : Trace)
    (hopen : h.status = S.MBError.SUCCESS) (hdict : h.dict = some d)
    (hwriter : flagSet h.options S.CONSTS.ACCESS_MODE_WRITER = true) :
    (flagSet h.options S.CONSTS.ASYNC_WRITER_MODE = true →
      DB.Find S fuel h key len mdata tr = .ok (S.MBError.NOT_ALLOWED, mdata, tr) ∧
      DB.FindPrefix S h key len mdata tr = .ok (S.MBError.NOT_ALLOWED, mdata, tr) ∧
      DB.FindLongestPrefix S fuel h key len mdata tr = .ok (S.MBError.NOT_ALLOWED, mdata, tr)) ∧
    (flagSet h.options S.CONSTS.ASYNC_WRITER_MODE = false →
      ((S.env tr (.dictFind d key len mdata)).rval ≠ S.MBError.TRY_AGAIN →
        DB.Find S fuel h key len mdata tr =
          .ok ((S.env tr (.dictFind d key len mdata)).rval,
            if (S.env tr (.dictFind d key len mdata)).rval = S.MBError.SUCCESS then
              { (S.env tr (.dictFind d key len mdata)).mdata with match_len := len }
            else (S.env tr (.dictFind d key len mdata)).mdata,
            tr ++ [.dictFind d key len mdata])) ∧
      (mdata.match_len < len →
        DB.FindPrefix S h key len mdata tr =
          .ok ((S.env tr (.dictFindPrefix d (key.add mdata.match_len) (len - mdata.match_len)
                mdata)).rval,
            (S.env tr (.dictFindPrefix d (key.add mdata.match_len) (len - mdata.match_len)
                mdata)).mdata,
            tr ++ [.dictFindPrefix d (key.add mdata.match_len) (len - mdata.match_len) mdata])) ∧
      ((S.env tr (.dictFindPrefix d key len { mdata with match_len := 0 })).rval ≠
          S.MBError.TRY_AGAIN →
        DB.FindLongestPrefix S fuel h key len mdata tr =
          .ok ((S.env tr (.dictFindPrefix d key len { mdata with match_len := 0 })).rval,
            (S.env tr (.dictFindPrefix d key len { mdata with match_len := 0 })).mdata,
            tr ++ [.dictFindPrefix d key len { mdata with match_len := 0 }]))) := by
  have _ := hwriter
  refine ⟨fun hasync => ⟨?_, ?_, ?_⟩, fun hsync => ⟨fun hr => ?_, fun hlt => ?_, fun hr => ?_⟩⟩
  · simp [DB.Find, hopen, hasync]
  · simp [DB.FindPrefix, hopen, hasync]
  · simp [DB.FindLongestPrefix, hopen, hasync]
  · have hdone := find_retry_done S d key len fuel _ (S.env tr (.dictFind d key len mdata)).mdata
      (tr ++ [.dictFind d key len mdata]) hr
    cases hlf : S.LOCK_FREE <;>
      simp only [DB.Find, hopen, hsync, hdict, Dict.Find, perform, hlf, hdone] <;>
      by_cases hs : (S.env tr (.dictFind d key len mdata)).rval = S.MBError.SUCCESS <;>
      simp [hs]
  · simp [DB.FindPrefix, hopen, hsync, hdict, Dict.FindPrefix, perform, not_le.mpr hlt]
  · have hdone := findLongestPrefix_retry_done S d key len fuel _
      (S.env tr (.dictFindPrefix d key len { mdata with match_len := 0 })).mdata
      (tr ++ [.dictFindPrefix d key len { mdata with match_len := 0 }]) hr
    cases hlf : S.LOCK_FREE <;>
      simp [DB.FindLongestPrefix, hopen, hsync, hdict, Dict.FindPrefix, perform, hlf, hdone]

/-- Witness for the amended C2: a synchronous writer handle, key `"abc"`. -/
theorem find_on_writer_handle_witness :
    DB.Find calmSys 5 (openHandle 1 none) keyAbc 3 emptyData [] =
      .ok (0, { emptyData with match_len := 3 }, [.dictFind (testDict 1) keyAbc 3 emptyData]) := by
  have hw := find_on_writer_handle calmSys 5 (openHandle 1 none) (testDict 1) keyAbc 3 emptyData []
    (by decide) (by decide) (by decide)
  have hfind := hw.2 (by decide) |>.1 (by decide)
  rw [hfind]
  decide

/-- C3: on an open handle without the `WRITER` bit and without an async writer,
whose dictionary was constructed with the handle's options (as the constructor
does), both `Add` overloads, `Remove` and `RemoveAll` return `NOT_ALLOWED` for
every input; no call reaches the trie engine (the trace is unchanged) and the
`MBData` argument is handed back as it was. -/
theorem mutators_not_allowed_on_reader (S : Sys) (h : DB) (d : Dict) (key : CharPtr)
    (len : Int) (mbdata : MBData) (data : Option CharPtr) (data_len : Int) (overwrite : Bool)
    (tr : Trace)
    (hopen : h.status = S.MBError.SUCCESS)
    (hreader : flagSet h.options S.CONSTS.ACCESS_MODE_WRITER = false)
    (hnone : h.async_writer = none)
    (hdict : h.dict = some d) (hopts : d.options = h.options) :
    DB.Add S h key len mbdata overwrite tr = .ok (S.MBError.NOT_ALLOWED, mbdata, tr) ∧
    DB.Add_data S h key len data data_len overwrite tr = .ok (S.MBError.NOT_ALLOWED, tr) ∧
    DB.Remove S h key len tr = .ok (S.MBError.NOT_ALLOWED, tr) ∧
    DB.RemoveAll S h tr = .ok (S.MBError.NOT_ALLOWED, tr) := by
  refine ⟨?_, ?_, ?_, ?_⟩
  · simp [DB.Add, hopen, hnone, hdict, Dict.Add, hopts, hreader]
  · simp [DB.Add_data, hopen, hnone, hdict, Dict.Add, hopts, hreader]
  · simp [DB.Remove, hopen, hnone, hdict, Dict.Remove, hopts, hreader]
  · simp [DB.RemoveAll, hopen, hnone, hdict, Dict.RemoveAll, hopts, hreader]

/-- Witness for C3: a reader handle on the test directory. -/
theorem mutators_not_allowed_on_reader_witness :
    DB.Add calmSys (openHandle 0 none) keyAbc 3 emptyData true [] =
        .ok (calmSys.MBError.NOT_ALLOWED, emptyData, []) ∧
      DB.Add_data calmSys (openHandle 0 none) keyAbc 3 (some keyAbc) 3 true [] =
        .ok (calmSys.MBError.NOT_ALLOWED, []) ∧
      DB.Remove calmSys (openHandle 0 none) keyAbc 3 [] = .ok (calmSys.MBError.NOT_ALLOWED, []) ∧
      DB.RemoveAll calmSys (openHandle 0 none) [] = .ok (calmSys.MBError.NOT_ALLOWED, []) :=
  mutators_not_allowed_on_reader calmSys (openHandle 0 none) (testDict 0) keyAbc 3 emptyData
    (some keyAbc) 3 true [] (by decide) (by decide) (by decide) (by decide) (by decide)

/-- C4: on a handle whose status is not `SUCCESS`, both `Add` overloads, `Remove`,
`Find`, `FindPrefix` and `FindLongestPrefix` return `NOT_INITIALIZED` at once: no
call to the dictionary or the async writer is made (the trace is unchanged) and
the caller's buffer is handed back as it was.  None of them writes to the
handle. -/
theorem not_initialized_when_not_open (S : Sys) (fuel : Nat) (h : DB) (key : CharPtr)
    (len : Int) (mdata : MBData) (data : Option CharPtr) (data_len : Int) (overwrite : Bool)
    (tr : Trace) (hclosed : h.status ≠ S.MBError.SUCCESS) :
    DB.Add S h key len mdata overwrite tr = .ok (S.MBError.NOT_INITIALIZED, mdata, tr) ∧
    DB.Add_data S h key len data data_len overwrite tr = .ok (S.MBError.NOT_INITIALIZED, tr) ∧
    DB.Remove S h key len tr = .ok (S.MBError.NOT_INITIALIZED, tr) ∧
    DB.Find S fuel h key len mdata tr = .ok (S.MBError.NOT_INITIALIZED, mdata, tr) ∧
    DB.FindPrefix S h key len mdata tr = .ok (S.MBError.NOT_INITIALIZED, mdata, tr) ∧
    DB.FindLongestPrefix S fuel h key len mdata tr =
      .ok (S.MBError.NOT_INITIALIZED, mdata, tr) := by
  refine ⟨?_, ?_, ?_, ?_, ?_, ?_⟩
  · simp [DB.Add, hclosed]
  · simp [DB.Add_data, hclosed]
  · simp [DB.Remove, hclosed]
  · simp [DB.Find, hclosed]
  · simp [DB.FindPrefix, hclosed]
  · simp [DB.FindLongestPrefix, hclosed]

/-- Witness for C4: a closed handle. -/
theorem not_initialized_when_not_open_witness :
    closedHandle.status ≠ calmSys.MBError.SUCCESS ∧
    DB.Add calmSys closedHandle keyAbc 3 emptyData true [] =
      .ok (calmSys.MBError.NOT_INITIALIZED, emptyData, []) ∧
    DB.Find calmSys 5 closedHandle keyAbc 3 emptyData [] =
      .ok (calmSys.MBError.NOT_INITIALIZED, emptyData, []) :=
  have hw := not_initialized_when_not_open calmSys 5 closedHandle keyAbc 3 emptyData
    (some keyAbc) 3 true [] (by decide)
  ⟨by decide, hw.1, hw.2.2.2.1⟩

/-- C5, as stated, fails: closing an open handle leaves it with status
`DB_CLOSED`, and on that handle `CollectResource` returns `DB_CLOSED`, which is
not `NOT_INITIALIZED`. -/
theorem collectResource_when_closed_counterexample :
    DB.Close calmSys (openHandle 1 none) [] =
      .ok (calmSys.MBError.SUCCESS, closedHandle,
        [.dictPrintStats (testDict 1), .WrLock, .dictUpdateNumWriter (testDict 1) (-1), .UnLock,
          .dictDestroy (testDict 1), .deleteDict (testDict 1)]) ∧
    closedHandle.status ≠ calmSys.MBError.SUCCESS ∧
    DB.CollectResource calmSys closedHandle 0 0 [] = (calmSys.MBError.DB_CLOSED, []) ∧
    (DB.CollectResource calmSys closedHandle 0 0 []).1 ≠ calmSys.MBError.NOT_INITIALIZED := by
  decide

/-- C5, amended: on a handle whose status is not `SUCCESS`, `CollectResource`
returns the handle's own status code, and both `RemoveAll` and `CollectResource`
return at once, without a call to the dictionary, the async writer or the
resource collection (the trace is unchanged). -/
theorem removeAll_collectResource_when_not_open (S : Sys) (h : DB)
    (min_index_rc_size min_data_rc_size : Int) (tr : Trace)
    (hclosed : h.status ≠ S.MBError.SUCCESS) :
    DB.CollectResource S h min_index_rc_size min_data_rc_size tr = (h.status, tr) ∧
    ∃ rval, DB.RemoveAll S h tr = .ok (rval, tr) := by
  refine ⟨?_, -1, ?_⟩
  · simp [DB.CollectResource, hclosed]
  · simp [DB.RemoveAll, hclosed]

/-- Witness for the amended C5: a closed handle. -/
theorem removeAll_collectResource_when_not_open_witness :
    closedHandle.status ≠ calmSys.MBError.SUCCESS ∧
    DB.CollectResource calmSys closedHandle 0 0 [] = (closedHandle.status, []) ∧
    ∃ rval, DB.RemoveAll calmSys closedHandle [] = .ok (rval, []) :=
  ⟨by decide, removeAll_collectResource_when_not_open calmSys closedHandle 0 0 [] (by decide)⟩

/-! ## Attaching readers to the async writer -/

/-- C6: `SetAsyncWriterPtr(db_writer)` on `h` returns `SUCCESS` exactly when
`db_writer` is not `NULL`, `h` lacks `WRITER`, both handles carry the same
directory string, and `db_writer` has `WRITER`, `ASYNC_WRITER_MODE` and an async
writer.  On `SUCCESS` the user count of that async writer goes up by exactly 1
(no other async writer is touched) and `h.AsyncWriterEnabled()` holds.  Otherwise
the result is `NOT_ALLOWED` when `db_writer` is not `NULL` and `h` is a writer,
`INVALID_ARG` in every other case, and handle and user counts are unchanged. -/
theorem setAsyncWriterPtr_spec (S : Sys) (h : DB) (db_writer : Option DB) (heap : AwHeap)
    (hinvalid : S.MBError.INVALID_ARG ≠ S.MBError.SUCCESS)
    (hnotallowed : S.MBError.NOT_ALLOWED ≠ S.MBError.SUCCESS) :
    ((DB.SetAsyncWriterPtr S h db_writer heap).1 = S.MBError.SUCCESS ↔
      ∃ w aw, db_writer = some w ∧ flagSet h.options S.CONSTS.ACCESS_MODE_WRITER = false ∧
        w.mb_dir = h.mb_dir ∧ flagSet w.options S.CONSTS.ACCESS_MODE_WRITER = true ∧
        flagSet w.options S.CONSTS.ASYNC_WRITER_MODE = true ∧ w.async_writer = some aw) ∧
    (∀ w aw, db_writer = some w → w.async_writer = some aw →
      (DB.SetAsyncWriterPtr S h db_writer heap).1 = S.MBError.SUCCESS →
        ((DB.SetAsyncWriterPtr S h db_writer heap).2.2 aw).num_users = (heap aw).num_users + 1 ∧
        (∀ a, a ≠ aw → (DB.SetAsyncWriterPtr S h db_writer heap).2.2 a = heap a) ∧
        (DB.SetAsyncWriterPtr S h db_writer heap).2.1 = { h with async_writer := some aw } ∧
        DB.AsyncWriterEnabled (DB.SetAsyncWriterPtr S h db_writer heap).2.1 = true) ∧
    ((DB.SetAsyncWriterPtr S h db_writer heap).1 ≠ S.MBError.SUCCESS →
      (DB.SetAsyncWriterPtr S h db_writer heap).1 =
        (if db_writer ≠ none ∧ flagSet h.options S.CONSTS.ACCESS_MODE_WRITER = true then
          S.MBError.NOT_ALLOWED else S.MBError.INVALID_ARG) ∧
      (DB.SetAsyncWriterPtr S h db_writer heap).2.1 = h ∧
      (DB.SetAsyncWriterPtr S h db_writer heap).2.2 = heap) := by
  cases db_writer with
  | none => simp [DB.SetAsyncWriterPtr, hinvalid]
  | some w =>
    cases hhw : flagSet h.options S.CONSTS.ACCESS_MODE_WRITER
    · by_cases hdir : w.mb_dir = h.mb_dir
      · cases haw : w.async_writer with
        | none => simp [DB.SetAsyncWriterPtr, hhw, hdir, haw, hinvalid]
        | some aw =>
          cases hww : flagSet w.options S.CONSTS.ACCESS_MODE_WRITER <;>
            cases hwa : flagSet w.options S.CONSTS.ASYNC_WRITER_MODE <;>
            simp [DB.SetAsyncWriterPtr, hhw, hdir, haw, hww, hwa, hinvalid,
              AsyncWriter.UpdateNumUsers, DB.AsyncWriterEnabled]
          intro w1 aw1 hw1 haw1
          subst hw1
          rw [haw] at haw1
          cases haw1
          exact ⟨by simp, fun a ha => Function.update_noteq ha _ _, rfl⟩
      · simp [DB.SetAsyncWriterPtr, hhw, hdir, hinvalid]
    · simp [DB.SetAsyncWriterPtr, hhw, hnotallowed]

/-- Witness for C6: a reader attaches to an async writer on the same directory. -/
theorem setAsyncWriterPtr_spec_witness :
    (DB.SetAsyncWriterPtr calmSys (openHandle 0 none) (some (openHandle 3 (some 7)))
        pool0.heap).1 = calmSys.MBError.SUCCESS ∧
    ((DB.SetAsyncWriterPtr calmSys (openHandle 0 none) (some (openHandle 3 (some 7)))
        pool0.heap).2.2 7).num_users = (pool0.heap 7).num_users + 1 :=
  have hs := setAsyncWriterPtr_spec calmSys (openHandle 0 none) (some (openHandle 3 (some 7)))
    pool0.heap (by decide) (by decide)
  have hok := hs.1.2 ⟨openHandle 3 (some 7), 7, rfl, by decide, by decide, by decide, by decide,
    by decide⟩
  ⟨hok, (hs.2.1 (openHandle 3 (some 7)) 7 rfl rfl hok).1⟩

/-- Replacing reader `i` changes the number of attached readers by the difference
between the new and the old reader. -/
theorem attached_set (aw : Nat) (r' : DB) :
    ∀ (l : List DB) (i : Nat) (r : DB), l[i]? = some r →
      attached aw (l.set i r') + (if r.async_writer = some aw then 1 else 0) =
        attached aw l + (if r'.async_writer = some aw then 1 else 0)
  | [], i, r, hr => by simp at hr
  | a :: l, 0, r, hr => by
    simp only [List.getElem?_cons_zero, Option.some.injEq] at hr
    subst hr
    simp only [attached, List.set_cons_zero, List.countP_cons, beq_iff_eq]
    omega
  | a :: l, i + 1, r, hr => by
    simp only [List.getElem?_cons_succ] at hr
    have ih := attached_set aw r' l i r hr
    simp only [attached, List.set_cons_succ, List.countP_cons, beq_iff_eq] at ih ⊢
    omega

/-- The method `SetAsyncWriterPtr` either changes nothing or sets the pointer and
adds one user. -/
theorem setAsyncWriterPtr_shape (S : Sys) (h w : DB) (heap : AwHeap) (aw : Nat)
    (haw : w.async_writer = some aw) :
    ((DB.SetAsyncWriterPtr S h (some w) heap).2.1 = h ∧
        (DB.SetAsyncWriterPtr S h (some w) heap).2.2 = heap) ∨
      ((DB.SetAsyncWriterPtr S h (some w) heap).2.1 = { h with async_writer := some aw } ∧
        (DB.SetAsyncWriterPtr S h (some w) heap).2.2 = AsyncWriter.UpdateNumUsers heap aw 1) := by
  simp only [DB.SetAsyncWriterPtr, haw]
  split_ifs <;> simp

/-- The method `UnsetAsyncWriterPtr` either changes nothing or clears the pointer
and removes one user. -/
theorem unsetAsyncWriterPtr_shape (S : Sys) (h w : DB) (heap : AwHeap) (aw : Nat)
    (haw : w.async_writer = some aw) :
    ((DB.UnsetAsyncWriterPtr S h (some w) heap).2.1 = h ∧
        (DB.UnsetAsyncWriterPtr S h (some w) heap).2.2 = heap) ∨
      ((DB.UnsetAsyncWriterPtr S h (some w) heap).2.1 = { h with async_writer := none } ∧
        (DB.UnsetAsyncWriterPtr S h (some w) heap).2.2 =
          AsyncWriter.UpdateNumUsers heap aw (-1)) := by
  simp only [DB.UnsetAsyncWriterPtr, haw]
  split_ifs <;> simp

/-- A call that keeps to the protocol preserves "user count = attached readers". -/
theorem step_keeps_count (S : Sys) (w : DB) (aw : Nat) (p : Pool) (c : PtrCall)
    (haw : w.async_writer = some aw) (hc : c.paired aw p = true)
    (hinv : (p.heap aw).num_users = attached aw p.readers) :
    ((Pool.step S w p c).heap aw).num_users = attached aw (Pool.step S w p c).readers := by
  cases c with
  | set i =>
    simp only [Pool.step, PtrCall.paired] at hc ⊢
    cases hr : p.readers[i]? with
    | none => simpa using hinv
    | some r =>
      simp only [hr, beq_iff_eq] at hc
      simp only []
      rcases setAsyncWriterPtr_shape S r w p.heap aw haw with ⟨h1, h2⟩ | ⟨h1, h2⟩
      · have hs := attached_set aw r p.readers i r hr
        rw [h1, h2]
        omega
      · have hs := attached_set aw { r with async_writer := some aw } p.readers i r hr
        rw [h1, h2]
        simp only [hc, if_true, AsyncWriter.UpdateNumUsers, Function.update_same] at hs ⊢
        simp at hs
        omega
  | unset i =>
    simp only [Pool.step, PtrCall.paired] at hc ⊢
    cases hr : p.readers[i]? with
    | none => simpa using hinv
    | some r =>
      simp only [hr, beq_iff_eq] at hc
      simp only []
      rcases unsetAsyncWriterPtr_shape S r w p.heap aw haw with ⟨h1, h2⟩ | ⟨h1, h2⟩
      · have hs := attached_set aw r p.readers i r hr
        rw [h1, h2]
        omega
      · have hs := attached_set aw { r with async_writer := none } p.readers i r hr
        rw [h1, h2]
        simp only [hc, if_true, AsyncWriter.UpdateNumUsers, Function.update_same] at hs ⊢
        simp at hs
        omega

/-- A sequence of calls that keeps to the protocol preserves "user count =
attached readers". -/
theorem run_keeps_count (S : Sys) (w : DB) (aw : Nat) (haw : w.async_writer = some aw) :
    ∀ (calls : List PtrCall) (p : Pool), Pool.paired S w aw p calls = true →
      (p.heap aw).num_users = attached aw p.readers →
      ((Pool.run S w p calls).heap aw).num_users = attached aw (Pool.run S w p calls).readers
  | [], p, _, hinv => by simpa [Pool.run] using hinv
  | c :: calls, p, hp, hinv => by
    simp only [Pool.paired, Bool.and_eq_true] at hp
    have hstep := step_keeps_count S w aw p c haw hp.1 hinv
    simpa [Pool.run] using run_keeps_count S w aw haw calls (Pool.step S w p c) hp.2 hstep

/-- Every initial part of a sequence that keeps to the protocol keeps to it. -/
theorem paired_take (S : Sys) (w : DB) (aw : Nat) :
    ∀ (calls : List PtrCall) (p : Pool) (n : Nat), Pool.paired S w aw p calls = true →
      Pool.paired S w aw p (calls.take n) = true
  | [], _, n, _ => by simp [Pool.paired]
  | _ :: _, _, 0, _ => by simp [Pool.paired]
  | c :: calls, p, n + 1, hp => by
    simp only [Pool.paired, Bool.and_eq_true, List.take_succ_cons] at hp ⊢
    exact ⟨hp.1, paired_take S w aw calls _ n hp.2⟩

/-- C7, as stated, fails: against a fresh async writer (user count 0) a reader
that calls `UnsetAsyncWriterPtr` without having attached drives the count to
`-1` while no reader is attached, and a reader that calls `SetAsyncWriterPtr`
twice drives it to 2 while one reader is attached. -/
theorem user_count_counterexample :
    (openHandle 3 (some 7)).async_writer = some 7 ∧
    flagSet (openHandle 0 none).options calmSys.CONSTS.ACCESS_MODE_WRITER = false ∧
    (pool0.heap 7).num_users = 0 ∧
    ((Pool.run calmSys (openHandle 3 (some 7)) pool0 [.unset 0]).heap 7).num_users = -1 ∧
    attached 7 (Pool.run calmSys (openHandle 3 (some 7)) pool0 [.unset 0]).readers = 0 ∧
    ((Pool.run calmSys (openHandle 3 (some 7)) pool0 [.set 0, .set 0]).heap 7).num_users = 2 ∧
    attached 7 (Pool.run calmSys (openHandle 3 (some 7)) pool0 [.set 0, .set 0]).readers = 1 := by
  decide

/-- C7, amended: start from a writer handle that owns an async writer with user
count 0 and from readers none of which is attached, and let the readers issue
`SetAsyncWriterPtr` and `UnsetAsyncWriterPtr` against it such that a reader sets
the pointer only while it has none and unsets it only while it is attached.
Then after every initial part of the sequence the user count equals the number of
readers whose pointer is set to that async writer; it is not negative, and it is
zero exactly when no reader is attached. -/
theorem user_count_equals_attached (S : Sys) (w : DB) (aw : Nat) (readers : List DB)
    (heap : AwHeap) (calls : List PtrCall) (n : Nat)
    (haw : w.async_writer = some aw)
    (hfresh : (heap aw).num_users = 0)
    (hnone : ∀ r ∈ readers, r.async_writer = none)
    (hpaired : Pool.paired S w aw { readers := readers, heap := heap } calls = true) :
    ((Pool.run S w { readers := readers, heap := heap } (calls.take n)).heap aw).num_users =
        attached aw (Pool.run S w { readers := readers, heap := heap } (calls.take n)).readers ∧
      0 ≤ ((Pool.run S w { readers := readers, heap := heap } (calls.take n)).heap aw).num_users ∧
      (((Pool.run S w { readers := readers, heap := heap } (calls.take n)).heap aw).num_users = 0 ↔
        attached aw (Pool.run S w { readers := readers, heap := heap } (calls.take n)).readers
          = 0) := by
  have h0 : attached aw readers = 0 := by
    simp only [attached, List.countP_eq_zero, beq_iff_eq]
    intro r hr
    simp [hnone r hr]
  have hrun := run_keeps_count S w aw haw (calls.take n) { readers := readers, heap := heap }
    (paired_take S w aw calls _ n hpaired) (by simp [hfresh, h0])
  refine ⟨hrun, by omega, by omega⟩

/-- Witness for the amended C7: one reader attaches, detaches and attaches again. -/
theorem user_count_equals_attached_witness :
    ((Pool.run calmSys (openHandle 3 (some 7)) pool0 ([.set 0, .unset 0, .set 0].take 3)).heap 7).num_users
      = attached 7 (Pool.run calmSys (openHandle 3 (some 7)) pool0 ([.set 0, .unset 0, .set 0].take 3)).readers :=
  (user_count_equals_attached calmSys (openHandle 3 (some 7)) 7 pool0.readers pool0.heap
    [.set 0, .unset 0, .set 0] 3 (by decide) (by decide) (by decide) (by decide)).1

/-! ## Mutators on a handle with an async writer -/

/-- C8: on an open handle that has an async writer, both `Add` overloads,
`Remove`, `RemoveAll` and `CollectResource` make exactly one call, the operation
of the same name on that async writer with the arguments they were given
(for the `MBData` overload the buffer and length of the value), and return what
it returns.  The trace grows by that one call: no `Dict` mutator and no
`ResourceCollection` runs on the calling thread. -/
theorem mutators_forward_to_async_writer (S : Sys) (h : DB) (aw : Nat) (key : CharPtr)
    (len : Int) (mbdata : MBData) (data : Option CharPtr) (data_len : Int) (overwrite : Bool)
    (min_index_rc_size min_data_rc_size : Int) (tr : Trace)
    (hopen : h.status = S.MBError.SUCCESS) (haw : h.async_writer = some aw) :
    DB.Add S h key len mbdata overwrite tr =
      .ok ((S.env tr (.awAdd aw key len mbdata.buff mbdata.data_len overwrite)).rval, mbdata,
        tr ++ [.awAdd aw key len mbdata.buff mbdata.data_len overwrite]) ∧
    DB.Add_data S h key len data data_len overwrite tr =
      .ok ((S.env tr (.awAdd aw key len data data_len overwrite)).rval,
        tr ++ [.awAdd aw key len data data_len overwrite]) ∧
    DB.Remove S h key len tr =
      .ok ((S.env tr (.awRemove aw key len)).rval, tr ++ [.awRemove aw key len]) ∧
    DB.RemoveAll S h tr = .ok ((S.env tr (.awRemoveAll aw)).rval, tr ++ [.awRemoveAll aw]) ∧
    DB.CollectResource S h min_index_rc_size min_data_rc_size tr =
      ((S.env tr (.awCollectResource aw min_index_rc_size min_data_rc_size)).rval,
        tr ++ [.awCollectResource aw min_index_rc_size min_data_rc_size]) := by
  refine ⟨?_, ?_, ?_, ?_, ?_⟩
  · simp [DB.Add, hopen, haw, AsyncWriter.Add, perform]
  · simp [DB.Add_data, hopen, haw, AsyncWriter.Add, perform]
  · simp [DB.Remove, hopen, haw, AsyncWriter.Remove, perform]
  · simp [DB.RemoveAll, hopen, haw, AsyncWriter.RemoveAll, perform]
  · simp [DB.CollectResource, hopen, haw, AsyncWriter.CollectResource, perform]

/-- Witness for C8: a reader handle attached to the async writer at address 7. -/
theorem mutators_forward_to_async_writer_witness :
    DB.Add_data calmSys (openHandle 0 (some 7)) keyAbc 3 (some keyAbc) 3 true [] =
      .ok ((calmSys.env [] (.awAdd 7 keyAbc 3 (some keyAbc) 3 true)).rval,
        [] ++ [.awAdd 7 keyAbc 3 (some keyAbc) 3 true]) :=
  (mutators_forward_to_async_writer calmSys (openHandle 0 (some 7)) 7 keyAbc 3 emptyData
    (some keyAbc) 3 true 0 0 [] (by decide) (by decide)).2.1

/-! ## Resuming a prefix search -/

/-- The bytes designated by `p + m` and `len - m` are those designated by `p` and
`len` without the first `m`. -/
theorem bytes_add (p : CharPtr) (len m : Int) (bs : List Nat) (hb : p.bytes len = some bs)
    (hm0 : 0 ≤ m) (hm : m < len) :
    (p.add m).bytes (len - m) = some (bs.drop m.toNat) := by
  unfold CharPtr.bytes at hb ⊢
  split at hb
  · rename_i hin
    simp only [Option.some.injEq] at hb
    subst hb
    have h2 : 0 ≤ (p.add m).off ∧ 0 ≤ len - m ∧ (p.add m).off + (len - m) ≤ (p.add m).buf.length := by
      simp only [CharPtr.add]
      omega
    rw [if_pos h2]
    simp only [CharPtr.add, Option.some.injEq]
    rw [List.drop_take, List.drop_drop]
    congr 2 <;> omega
  · cases hb

/-- C9: on an open handle that is not in `ASYNC_WRITER_MODE`: if the cursor's
`match_len` is at least `len`, `FindPrefix` returns `OUT_OF_BOUND`, makes no call
and leaves the cursor as it was; otherwise it makes exactly one call, the prefix
lookup of the dictionary at the pointer `key + match_len` with length
`len - match_len` and the cursor, and returns what that lookup returns.  When
`key` designates `len` bytes and `match_len` is not negative, the bytes looked up
are the key without its first `match_len` bytes. -/
theorem findPrefix_resumes_at_match_len (S : Sys) (h : DB) (d : Dict) (key : CharPtr)
    (len : Int) (data : MBData) (tr : Trace)
    (hopen : h.status = S.MBError.SUCCESS)
    (hsync : flagSet h.options S.CONSTS.ASYNC_WRITER_MODE = false)
    (hdict : h.dict = some d) :
    (data.match_len ≥ len →
      DB.FindPrefix S h key len data tr = .ok (S.MBError.OUT_OF_BOUND, data, tr)) ∧
    (data.match_len < len →
      DB.FindPrefix S h key len data tr =
        .ok ((S.env tr (.dictFindPrefix d (key.add data.match_len) (len - data.match_len)
              data)).rval,
          (S.env tr (.dictFindPrefix d (key.add data.match_len) (len - data.match_len)
              data)).mdata,
          tr ++ [.dictFindPrefix d (key.add data.match_len) (len - data.match_len) data]) ∧
      ∀ bs, key.bytes len = some bs → 0 ≤ data.match_len →
        (key.add data.match_len).bytes (len - data.match_len) =
          some (bs.drop data.match_len.toNat)) := by
  refine ⟨fun hge => ?_, fun hlt => ⟨?_, fun bs hb h0 => bytes_add key len _ bs hb h0 hlt⟩⟩
  · simp [DB.FindPrefix, hopen, hsync, hge]
  · simp [DB.FindPrefix, hopen, hsync, hdict, Dict.FindPrefix, perform, not_le.mpr hlt]

/-- Witness for C9: a reader resumes the search for `"abc"` after one matched byte. -/
theorem findPrefix_resumes_at_match_len_witness :
    DB.FindPrefix calmSys (openHandle 0 none) keyAbc 3 { emptyData with match_len := 1 } [] =
        .ok (0, { emptyData with match_len := 1 },
          [.dictFindPrefix (testDict 0) { buf := [97, 98, 99], off := 1 } 2
            { emptyData with match_len := 1 }]) ∧
      (keyAbc.add 1).bytes 2 = some [98, 99] := by
  have hw := (findPrefix_resumes_at_match_len calmSys (openHandle 0 none) (testDict 0) keyAbc 3
    { emptyData with match_len := 1 } [] (by decide) (by decide) (by decide)).2 (by decide)
  exact ⟨hw.1.trans (by decide), hw.2 [97, 98, 99] (by decide) (by decide)⟩

/-! ## Opening a handle -/

/-- The second half of the constructor always leaves a handle. -/
theorem create_ok (S : Sys) (h0 : DB) (db_path_tmp : List Char) (init_header : Bool)
    (db_options memcap_index memcap_data : Nat) (data_size : Int) (tr : Trace) :
    ∃ h tr',
      DB.new.create S h0 db_path_tmp init_header db_options memcap_index memcap_data data_size tr =
        .ok (h, tr') := by
  simp only [DB.new.create, updateNumHandlers_mk]
  split_ifs <;> exact ⟨_, _, rfl⟩

/-- The calls of the second half of the constructor: the `Dict` is constructed
first; `Dict::Init` follows at once when the handle is a writer and header
initialisation was requested, and nothing initialises the header when it was
not. -/
theorem create_events (S : Sys) (h0 : DB) (db_path_tmp : List Char) (init_header : Bool)
    (db_options memcap_index memcap_data : Nat) (data_size : Int) (tr : Trace) (h : DB)
    (tr' : Trace)
    (hnew : DB.new.create S h0 db_path_tmp init_header db_options memcap_index memcap_data
      data_size tr = .ok (h, tr')) :
    ∃ evs,
      tr' = tr ++ Call.newDict
          (Dict.mk db_path_tmp init_header data_size db_options memcap_index memcap_data) :: evs ∧
      h.dict = some
        (Dict.mk db_path_tmp init_header data_size db_options memcap_index memcap_data) ∧
      h.identifier = h0.identifier ∧
      (flagSet db_options S.CONSTS.ACCESS_MODE_WRITER = true → init_header = true →
        evs.head? = some (.dictInit
          (Dict.mk db_path_tmp init_header data_size db_options memcap_index memcap_data)
          h0.identifier)) ∧
      (init_header = false → ∀ c ∈ evs, c.initsHeader = false) := by
  simp only [DB.new.create, updateNumHandlers_mk, perform, Dict.Status] at hnew
  split_ifs at hnew <;> simp only [Except.ok.injEq, Prod.mk.injEq] at hnew <;>
    obtain ⟨rfl, rfl⟩ := hnew <;> simp_all [Call.initsHeader]

/-- The outcomes of the directory and header check of the constructor. -/
theorem check_header_init (S : Sys) (h0 : DB) (db_path : List Char) (db_options : Nat)
    (memcap_index memcap_data : Nat) (data_size : Int) (tr : Trace) (h0d : h0.dict = none) :
    ((S.env tr (.access_F_OK db_path)).rval ≠ 0 →
      ∃ h, DB.new.check S h0 db_path db_options memcap_index memcap_data data_size tr =
          .ok (h, tr ++ [.access_F_OK db_path]) ∧
        h.status = S.MBError.NO_DB ∧ h.dict = none) ∧
    ((S.env tr (.access_F_OK db_path)).rval = 0 → db_path ≠ [] →
      ((S.env (tr ++ [.access_F_OK db_path]) (.access_R_OK (headerFile db_path))).rval ≠ 0 →
        flagSet db_options S.CONSTS.ACCESS_MODE_WRITER = false →
        ∃ h, DB.new.check S h0 db_path db_options memcap_index memcap_data data_size tr =
            .ok (h, tr ++ [.access_F_OK db_path, .access_R_OK (headerFile db_path)]) ∧
          h.status = S.MBError.NO_DB ∧ h.dict = none) ∧
      ((S.env (tr ++ [.access_F_OK db_path]) (.access_R_OK (headerFile db_path))).rval ≠ 0 →
        flagSet db_options S.CONSTS.ACCESS_MODE_WRITER = true →
        ∃ h d evs, DB.new.check S h0 db_path db_options memcap_index memcap_data data_size tr =
            .ok (h, tr ++ [.access_F_OK db_path, .access_R_OK (headerFile db_path), .newDict d,
              .dictInit d h.identifier] ++ evs) ∧
          d.init_header = true ∧ h.dict = some d) ∧
      ((S.env (tr ++ [.access_F_OK db_path]) (.access_R_OK (headerFile db_path))).rval = 0 →
        ∃ h d evs, DB.new.check S h0 db_path db_options memcap_index memcap_data data_size tr =
            .ok (h, tr ++ [.access_F_OK db_path, .access_R_OK (headerFile db_path), .newDict d] ++
              evs) ∧
          d.init_header = false ∧ h.dict = some d ∧ (∀ c ∈ evs, c.initsHeader = false))) := by
  refine ⟨fun hdir => ?_, fun hdir hpath => ?_⟩
  · exact ⟨{ h0 with status := S.MBError.NO_DB }, by simp [DB.new.check, perform, hdir], rfl, h0d⟩
  · obtain ⟨last, hl⟩ : ∃ last, db_path.getLast? = some last := by
      cases hq : db_path.getLast? with
      | none => exact absurd (List.getLast?_eq_none_iff.mp hq) hpath
      | some last => exact ⟨last, rfl⟩
    have hfile : (if last ≠ '/' then db_path ++ "/".toList else db_path) ++ "_mabain_h".toList =
        headerFile db_path := by
      by_cases hc : last = '/' <;> simp [headerFile, hl, hc]
    have hunfold : DB.new.check S h0 db_path db_options memcap_index memcap_data data_size tr =
        if (S.env (tr ++ [.access_F_OK db_path]) (.access_R_OK (headerFile db_path))).rval ≠ 0 then
          if flagSet db_options S.CONSTS.ACCESS_MODE_WRITER then
            DB.new.create S h0 (if last ≠ '/' then db_path ++ "/".toList else db_path) true
              db_options memcap_index memcap_data data_size
              (tr ++ [.access_F_OK db_path, .access_R_OK (headerFile db_path)])
          else
            .ok ({ h0 with status := S.MBError.NO_DB },
              tr ++ [.access_F_OK db_path, .access_R_OK (headerFile db_path)])
        else
          DB.new.create S h0 (if last ≠ '/' then db_path ++ "/".toList else db_path) false
            db_options memcap_index memcap_data data_size
            (tr ++ [.access_F_OK db_path, .access_R_OK (headerFile db_path)]) := by
      simp only [DB.new.check, perform, hl]
      rw [hfile, if_neg (not_not.mpr hdir)]
      simp only [List.append_assoc, List.singleton_append]
    rw [hunfold]
    refine ⟨fun hhdr hreader => ?_, fun hhdr hwriter => ?_, fun hhdr => ?_⟩
    · exact ⟨{ h0 with status := S.MBError.NO_DB }, by simp [hhdr, hreader], rfl, h0d⟩
    · obtain ⟨h, tr', hc⟩ := create_ok S h0 (if last ≠ '/' then db_path ++ "/".toList else db_path)
        true db_options memcap_index memcap_data data_size
        (tr ++ [.access_F_OK db_path, .access_R_OK (headerFile db_path)])
      obtain ⟨evs, rfl, hd, hid, hinit, -⟩ := create_events S _ _ _ _ _ _ _ _ h _ hc
      have hhead := hinit hwriter rfl
      cases evs with
      | nil => simp at hhead
      | cons e evs =>
        simp only [List.head?_cons, Option.some.injEq] at hhead
        subst hhead
        refine ⟨h, _, evs, ?_, rfl, hd⟩
        rw [if_pos hhdr, if_pos hwriter, hc, hid]
        simp
    · obtain ⟨h, tr', hc⟩ := create_ok S h0 (if last ≠ '/' then db_path ++ "/".toList else db_path)
        false db_options memcap_index memcap_data data_size
        (tr ++ [.access_F_OK db_path, .access_R_OK (headerFile db_path)])
      obtain ⟨evs, rfl, hd, -, -, hnoinit⟩ := create_events S _ _ _ _ _ _ _ _ h _ hc
      refine ⟨h, _, evs, ?_, rfl, hd, hnoinit rfl⟩
      rw [if_neg (not_not.mpr hhdr), hc]
      simp

/-- C10: the constructor, with `start` the trace at the moment the directory is
checked.  If the directory does not exist the handle ends with status `NO_DB`
and without a dictionary, whatever the options.  If it exists: when the header
file `_mabain_h` is not readable and the options lack `WRITER`, the handle ends
with status `NO_DB` and no `Dict` is constructed; when the header file is not
readable and the options include `WRITER`, a `Dict` is constructed with
`init_header = true` and `Dict::Init` is called on it next; when the header file
is readable, the `Dict` is constructed with `init_header = false` and no later
call of the constructor initialises the header, whatever the options. -/
theorem constructor_header_init (S : Sys) (db_path : List Char) (db_options : Nat)
    (memcap_index memcap_data : Nat) (data_size : Int) (id : Nat) (tr start : Trace)
    (hstart : start = if id = 0 then tr ++ [Call.gettid] else tr) :
    ((S.env start (.access_F_OK db_path)).rval ≠ 0 →
      ∃ h, DB.new S db_path db_options memcap_index memcap_data data_size id tr =
          .ok (h, start ++ [.access_F_OK db_path]) ∧
        h.status = S.MBError.NO_DB ∧ h.dict = none) ∧
    ((S.env start (.access_F_OK db_path)).rval = 0 → db_path ≠ [] →
      ((S.env (start ++ [.access_F_OK db_path]) (.access_R_OK (headerFile db_path))).rval ≠ 0 →
        flagSet db_options S.CONSTS.ACCESS_MODE_WRITER = false →
        ∃ h, DB.new S db_path db_options memcap_index memcap_data data_size id tr =
            .ok (h, start ++ [.access_F_OK db_path, .access_R_OK (headerFile db_path)]) ∧
          h.status = S.MBError.NO_DB ∧ h.dict = none) ∧
      ((S.env (start ++ [.access_F_OK db_path]) (.access_R_OK (headerFile db_path))).rval ≠ 0 →
        flagSet db_options S.CONSTS.ACCESS_MODE_WRITER = true →
        ∃ h d evs, DB.new S db_path db_options memcap_index memcap_data data_size id tr =
            .ok (h, start ++ [.access_F_OK db_path, .access_R_OK (headerFile db_path),
              .newDict d, .dictInit d h.identifier] ++ evs) ∧
          d.init_header = true ∧ h.dict = some d) ∧
      ((S.env (start ++ [.access_F_OK db_path]) (.access_R_OK (headerFile db_path))).rval = 0 →
        ∃ h d evs, DB.new S db_path db_options memcap_index memcap_data data_size id tr =
            .ok (h, start ++ [.access_F_OK db_path, .access_R_OK (headerFile db_path),
              .newDict d] ++ evs) ∧
          d.init_header = false ∧ h.dict = some d ∧ (∀ c ∈ evs, c.initsHeader = false))) := by
  subst hstart
  by_cases hid : id = 0
  · simp only [DB.new, hid, if_true, perform]
    exact check_header_init S _ db_path db_options memcap_index memcap_data data_size _ rfl
  · simp only [DB.new, hid, if_false]
    exact check_header_init S _ db_path db_options memcap_index memcap_data data_size _ rfl

/-- Witness for C10: a writer opens a directory that holds no database yet. -/
theorem constructor_header_init_witness :
    ∃ h d evs, DB.new freshSys testDir 1 64 64 0 5 [] =
        .ok (h, [] ++ [.access_F_OK testDir, .access_R_OK (headerFile testDir), .newDict d,
          .dictInit d h.identifier] ++ evs) ∧
      d.init_header = true ∧ h.dict = some d :=
  ((constructor_header_init freshSys testDir 1 64 64 0 5 [] [] (by decide)).2 (by decide)
    (by decide)).2.1 (by decide) (by decide)

/-! ## Closing a handle -/

/-- C12: `Close` on an open writer handle that owns an async writer.  It first calls
`StopAsyncThread`.  If that returns an error `e`, `Close` returns `e`, the handle
is exactly as before (status, dictionary and async writer untouched) and nothing
else was called: no handle count is changed and the dictionary is not torn down.
If it returns `SUCCESS`, the async writer is deleted, then the statistics are
printed, the writer count is decremented under the lock and the dictionary is
destroyed and deleted, in this order; the handle ends with no async writer, no
dictionary and status `DB_CLOSED`, and `Close` returns `SUCCESS`. -/
theorem close_stops_async_writer_first (S : Sys) (h : DB) (d : Dict) (aw : Nat) (tr : Trace)
    (hopen : h.status = S.MBError.SUCCESS)
    (hwriter : flagSet h.options S.CONSTS.ACCESS_MODE_WRITER = true)
    (haw : h.async_writer = some aw) (hdict : h.dict = some d) :
    ((S.env tr (.awStopAsyncThread aw)).rval ≠ S.MBError.SUCCESS →
      DB.Close S h tr =
        .ok ((S.env tr (.awStopAsyncThread aw)).rval, h, tr ++ [.awStopAsyncThread aw]) ∧
      h.status = S.MBError.SUCCESS) ∧
    ((S.env tr (.awStopAsyncThread aw)).rval = S.MBError.SUCCESS →
      DB.Close S h tr =
        .ok (S.MBError.SUCCESS,
          { h with async_writer := none, dict := none, status := S.MBError.DB_CLOSED },
          tr ++ [.awStopAsyncThread aw, .deleteAsyncWriter aw, .dictPrintStats d, .WrLock,
            .dictUpdateNumWriter d (-1), .UnLock, .dictDestroy d, .deleteDict d])) := by
  refine ⟨fun herr => ⟨?_, hopen⟩, fun hok => ?_⟩
  · simp [DB.Close, haw, hwriter, AsyncWriter.StopAsyncThread, perform, herr]
  · simp [DB.Close, DB.Close.teardown, haw, hwriter, hdict, AsyncWriter.StopAsyncThread, perform,
      hok, updateNumHandlers_mk]

/-- Witness for C12: the async writer of the example program is closed. -/
theorem close_stops_async_writer_first_witness :
    DB.Close calmSys (openHandle 3 (some 7)) [] =
      .ok (calmSys.MBError.SUCCESS,
        { openHandle 3 (some 7) with
          async_writer := none, dict := none, status := calmSys.MBError.DB_CLOSED },
        [] ++ [.awStopAsyncThread 7, .deleteAsyncWriter 7, .dictPrintStats (testDict 3), .WrLock,
          .dictUpdateNumWriter (testDict 3) (-1), .UnLock, .dictDestroy (testDict 3),
          .deleteDict (testDict 3)]) :=
  (close_stops_async_writer_first calmSys (openHandle 3 (some 7)) (testDict 3) 7 []
    (by decide) (by decide) (by decide) (by decide)).2 (by decide)

/-- What every `Close` that returns `SUCCESS` leaves behind: status `DB_CLOSED`, no
dictionary, and no async writer on a writer handle. -/
theorem close_success_shape (S : Sys) (h : DB) (tr : Trace) (h' : DB) (tr' : Trace)
    (hclose : DB.Close S h tr = .ok (S.MBError.SUCCESS, h', tr')) :
    h'.status = S.MBError.DB_CLOSED ∧ h'.dict = none ∧ h'.options = h.options ∧
      (flagSet h'.options S.CONSTS.ACCESS_MODE_WRITER = true → h'.async_writer = none) := by
  have hteardown : ∀ (rv : Int) (g : DB) (t : Trace) (rv' : Int),
      DB.Close.teardown S rv g t = .ok (rv', h', tr') →
      h'.status = S.MBError.DB_CLOSED ∧ h'.dict = none ∧ h'.options = g.options ∧
        h'.async_writer = g.async_writer := by
    intro rv g t rv' ht
    cases hd : g.dict with
    | none =>
      simp only [DB.Close.teardown, hd, Except.ok.injEq, Prod.mk.injEq] at ht
      obtain ⟨-, rfl, -⟩ := ht
      simp [hd]
    | some d =>
      simp only [DB.Close.teardown, hd, updateNumHandlers_some S g d _ _ _ hd, Except.ok.injEq,
        Prod.mk.injEq] at ht
      obtain ⟨-, rfl, -⟩ := ht
      simp
  cases haw : h.async_writer with
  | none =>
    simp only [DB.Close, haw] at hclose
    obtain ⟨h1, h2, h3, h4⟩ := hteardown _ _ _ _ hclose
    exact ⟨h1, h2, h3, fun _ => by rw [h4, haw]⟩
  | some aw =>
    cases hw : flagSet h.options S.CONSTS.ACCESS_MODE_WRITER
    · simp only [DB.Close, haw, hw] at hclose
      obtain ⟨h1, h2, h3, -⟩ := hteardown _ _ _ _ hclose
      exact ⟨h1, h2, h3, fun hw' => by rw [h3, hw] at hw'; cases hw'⟩
    · simp only [DB.Close, haw, hw, if_true] at hclose
      split at hclose
      · rename_i herr
        simp only [Except.ok.injEq, Prod.mk.injEq] at hclose
        exact absurd hclose.1 herr
      · obtain ⟨h1, h2, h3, h4⟩ := hteardown _ _ _ _ hclose
        exact ⟨h1, h2, h3, fun _ => by rw [h4]⟩

/-- C16: once `Close` has returned `SUCCESS`, the handle is closed for good:
`Status()` is `DB_CLOSED` and `is_open()` is false; `Add` (both overloads),
`Remove`, `Find`, `FindPrefix` and `FindLongestPrefix` return `NOT_INITIALIZED`
and `Count` returns `-1`, all without a call; a second `Close` returns
`DB_CLOSED`, makes no call (the dictionary and the handle counts are not
touched) and leaves the handle as it is. -/
theorem closed_handle_stays_closed (S : Sys) (h : DB) (tr : Trace) (h' : DB) (tr' : Trace)
    (hclose : DB.Close S h tr = .ok (S.MBError.SUCCESS, h', tr'))
    (hcode : S.MBError.DB_CLOSED ≠ S.MBError.SUCCESS) :
    DB.Status h' = S.MBError.DB_CLOSED ∧ DB.is_open S h' = false ∧
    (∀ (fuel : Nat) (key : CharPtr) (len : Int) (mdata : MBData) (data : Option CharPtr)
        (data_len : Int) (overwrite : Bool) (t : Trace),
      DB.Add S h' key len mdata overwrite t = .ok (S.MBError.NOT_INITIALIZED, mdata, t) ∧
      DB.Add_data S h' key len data data_len overwrite t = .ok (S.MBError.NOT_INITIALIZED, t) ∧
      DB.Remove S h' key len t = .ok (S.MBError.NOT_INITIALIZED, t) ∧
      DB.Find S fuel h' key len mdata t = .ok (S.MBError.NOT_INITIALIZED, mdata, t) ∧
      DB.FindPrefix S h' key len mdata t = .ok (S.MBError.NOT_INITIALIZED, mdata, t) ∧
      DB.FindLongestPrefix S fuel h' key len mdata t =
        .ok (S.MBError.NOT_INITIALIZED, mdata, t)) ∧
    (∀ t : Trace, DB.Count S h' t = .ok (-1, t)) ∧
    (∀ t : Trace, DB.Close S h' t = .ok (S.MBError.DB_CLOSED, h', t)) := by
  obtain ⟨hst, hd, -, haw⟩ := close_success_shape S h tr h' tr' hclose
  have hne : h'.status ≠ S.MBError.SUCCESS := by rw [hst]; exact hcode
  refine ⟨hst, by simp [DB.is_open, hst, hcode], ?_, fun t => by simp [DB.Count, hne], fun t => ?_⟩
  · intro fuel key len mdata data data_len overwrite t
    refine ⟨?_, ?_, ?_, ?_, ?_, ?_⟩
    · simp [DB.Add, hne]
    · simp [DB.Add_data, hne]
    · simp [DB.Remove, hne]
    · simp [DB.Find, hne]
    · simp [DB.FindPrefix, hne]
    · simp [DB.FindLongestPrefix, hne]
  · cases h' with
    | mk a b c e f g =>
      simp only at hst hd haw
      subst hst hd
      cases f with
      | none => simp [DB.Close, DB.Close.teardown]
      | some aw =>
        cases hw : flagSet b S.CONSTS.ACCESS_MODE_WRITER
        · simp [DB.Close, DB.Close.teardown, hw]
        · exact absurd (haw hw) (by simp)

/-- Witness for C16: a synchronous writer handle is closed. -/
theorem closed_handle_stays_closed_witness :
    DB.Close calmSys closedHandle [] = .ok (calmSys.MBError.DB_CLOSED, closedHandle, []) ∧
    DB.Count calmSys closedHandle [] = .ok (-1, []) :=
  have hw := closed_handle_stays_closed calmSys (openHandle 1 none) [] closedHandle
    [.dictPrintStats (testDict 1), .WrLock, .dictUpdateNumWriter (testDict 1) (-1), .UnLock,
      .dictDestroy (testDict 1), .deleteDict (testDict 1)] (by decide) (by decide)
  ⟨hw.2.2.2.2 [], hw.2.2.2.1 []⟩

/-- C15 fails after a failed open.  A reader whose dictionary reports a bad status
is never registered (no `+1` call), yet `Close` decrements the reader count.  A
writer whose `+1` is rejected is left with that error as status, yet `Close`
decrements the writer count. -/
theorem close_after_failed_open_decrements :
    DB.new badStatusSys testDir 0 64 64 0 1 [] = .ok (failedReader, openingCalls 0) ∧
    DB.Close badStatusSys failedReader (openingCalls 0) =
      .ok (0, { failedReader with dict := none, status := stdErrors.DB_CLOSED },
        openingCalls 0 ++ [.WrLock, .dictUpdateNumReader (testDict 0) (-1), .UnLock,
          .dictDestroy (testDict 0), .deleteDict (testDict 0)]) ∧
    DB.new rejectSys testDir 1 64 64 0 1 [] =
      .ok (rejectedWriter,
        openingCalls 1 ++ [.dictGetShmLockPtrs (testDict 1), .lockInit, .WrLock,
          .dictUpdateNumWriter (testDict 1) 1, .UnLock]) ∧
    rejectedWriter.status ≠ rejectSys.MBError.SUCCESS ∧
    DB.Close rejectSys rejectedWriter [] =
      .ok (0, { rejectedWriter with dict := none, status := stdErrors.DB_CLOSED },
        [.dictPrintStats (testDict 1), .WrLock, .dictUpdateNumWriter (testDict 1) (-1), .UnLock,
          .dictDestroy (testDict 1), .deleteDict (testDict 1)]) := by
  decide

/-! ## Retrying a lookup -/

/-- The retry loop of `Find` with enough fuel ends in the state after the first
attempt whose result is not `TRY_AGAIN`. -/
theorem find_retry_run (S : Sys) (d : Dict) (key : CharPtr) (len : Int) :
    ∀ (n fuel : Nat) (p : Int × MBData × Trace), n ≤ fuel →
      (∀ i < n, ((DB.Find.again S d key len)^[i] p).1 = S.MBError.TRY_AGAIN) →
      ((DB.Find.again S d key len)^[n] p).1 ≠ S.MBError.TRY_AGAIN →
      DB.Find.retry S d key len fuel p.1 p.2.1 p.2.2 = .ok ((DB.Find.again S d key len)^[n] p)
  | 0, fuel, p, _, _, hfinal => by
    simpa using find_retry_done S d key len fuel p.1 p.2.1 p.2.2 hfinal
  | n + 1, 0, _, hfuel, _, _ => by omega
  | n + 1, fuel + 1, p, hfuel, hagain, hfinal => by
    have h0 : p.1 = S.MBError.TRY_AGAIN := hagain 0 (Nat.succ_pos n)
    have ih := find_retry_run S d key len n fuel (DB.Find.again S d key len p) (by omega)
      (fun i hi => by simpa [Function.iterate_succ_apply] using hagain (i + 1) (by omega))
      (by simpa [Function.iterate_succ_apply] using hfinal)
    rw [DB.Find.retry, if_pos h0]
    simpa [Function.iterate_succ_apply, DB.Find.again] using ih

/-- Each round of the retry loop of `Find` adds one call that `q` counts, when `q`
counts the lookups of this key and not the sleeps. -/
theorem find_run_count (S : Sys) (d : Dict) (key : CharPtr) (len : Int) (q : Call → Bool)
    (hq : ∀ m, q (.dictFind d key len m) = true) (hsleep : q .nanosleep = false) :
    ∀ (n : Nat) (p : Int × MBData × Trace),
      ((DB.Find.again S d key len)^[n] p).2.2.countP q = p.2.2.countP q + n
  | 0, p => by simp
  | n + 1, p => by
    have ih := find_run_count S d key len q hq hsleep n p
    rw [Function.iterate_succ_apply']
    simp only [DB.Find.again, Dict.Find, perform, List.countP_append, List.countP_cons,
      List.countP_nil, hq, hsleep, ih]
    simp
    omega

/-- The retry loop of `FindLongestPrefix` with enough fuel ends in the state after
the first attempt whose result is not `TRY_AGAIN`. -/
theorem findLongestPrefix_retry_run (S : Sys) (d : Dict) (key : CharPtr) (len : Int) :
    ∀ (n fuel : Nat) (p : Int × MBData × Trace), n ≤ fuel →
      (∀ i < n, ((DB.FindLongestPrefix.again S d key len)^[i] p).1 = S.MBError.TRY_AGAIN) →
      ((DB.FindLongestPrefix.again S d key len)^[n] p).1 ≠ S.MBError.TRY_AGAIN →
      DB.FindLongestPrefix.retry S d key len fuel p.1 p.2.1 p.2.2 =
        .ok ((DB.FindLongestPrefix.again S d key len)^[n] p)
  | 0, fuel, p, _, _, hfinal => by
    simpa using findLongestPrefix_retry_done S d key len fuel p.1 p.2.1 p.2.2 hfinal
  | n + 1, 0, _, hfuel, _, _ => by omega
  | n + 1, fuel + 1, p, hfuel, hagain, hfinal => by
    have h0 : p.1 = S.MBError.TRY_AGAIN := hagain 0 (Nat.succ_pos n)
    have ih := findLongestPrefix_retry_run S d key len n fuel
      (DB.FindLongestPrefix.again S d key len p) (by omega)
      (fun i hi => by simpa [Function.iterate_succ_apply] using hagain (i + 1) (by omega))
      (by simpa [Function.iterate_succ_apply] using hfinal)
    rw [DB.FindLongestPrefix.retry, if_pos h0]
    simpa [Function.iterate_succ_apply, DB.FindLongestPrefix.again] using ih

/-- Each round of the retry loop of `FindLongestPrefix` adds one call that `q`
counts. -/
theorem findLongestPrefix_run_count (S : Sys) (d : Dict) (key : CharPtr) (len : Int)
    (q : Call → Bool) (hq : ∀ m, q (.dictFindPrefix d key len m) = true)
    (hsleep : q .nanosleep = false) :
    ∀ (n : Nat) (p : Int × MBData × Trace),
      ((DB.FindLongestPrefix.again S d key len)^[n] p).2.2.countP q = p.2.2.countP q + n
  | 0, p => by simp
  | n + 1, p => by
    have ih := findLongestPrefix_run_count S d key len q hq hsleep n p
    rw [Function.iterate_succ_apply']
    simp only [DB.FindLongestPrefix.again, Dict.FindPrefix, perform, List.countP_append,
      List.countP_cons, List.countP_nil, hq, hsleep, ih]
    simp
    omega

/-- C13: the lock-free build, an open handle that is not in `ASYNC_WRITER_MODE`.
Let attempt `n` be the first whose dictionary result is not `TRY_AGAIN`, and let
the fuel allow `n` retries.  Then `Find` returns that result, hands back the
buffer of that attempt with `match_len` set to `len` exactly when the result is
`SUCCESS`, and has made `n + 1` lookups, all of them with the same dictionary,
key and length.  `FindLongestPrefix` likewise returns the result and buffer of
its first attempt that is not `TRY_AGAIN`, after `n + 1` lookups.  `FindPrefix`,
when `match_len < len`, makes one lookup and returns its result as it is, also
when that is `TRY_AGAIN`. -/
theorem lookups_retry_until_settled (S : Sys) (fuel : Nat) (h : DB) (d : Dict) (key : CharPtr)
    (len : Int) (mdata : MBData) (tr : Trace)
    (hlf : S.LOCK_FREE = true)
    (hopen : h.status = S.MBError.SUCCESS)
    (hsync : flagSet h.options S.CONSTS.ASYNC_WRITER_MODE = false)
    (hdict : h.dict = some d) :
    (∀ n, n ≤ fuel →
      (∀ i < n, (DB.Find.attempt S d key len mdata tr i).1 = S.MBError.TRY_AGAIN) →
      (DB.Find.attempt S d key len mdata tr n).1 ≠ S.MBError.TRY_AGAIN →
      DB.Find S fuel h key len mdata tr =
          .ok ((DB.Find.attempt S d key len mdata tr n).1,
            if (DB.Find.attempt S d key len mdata tr n).1 = S.MBError.SUCCESS then
              { (DB.Find.attempt S d key len mdata tr n).2.1 with match_len := len }
            else (DB.Find.attempt S d key len mdata tr n).2.1,
            (DB.Find.attempt S d key len mdata tr n).2.2) ∧
        (DB.Find.attempt S d key len mdata tr n).2.2.countP Call.isLookup =
          tr.countP Call.isLookup + (n + 1) ∧
        (DB.Find.attempt S d key len mdata tr n).2.2.countP (Call.isLookupOf d key len) =
          tr.countP (Call.isLookupOf d key len) + (n + 1)) ∧
    (∀ n, n ≤ fuel →
      (∀ i < n, (DB.FindLongestPrefix.attempt S d key len mdata tr i).1 =
        S.MBError.TRY_AGAIN) →
      (DB.FindLongestPrefix.attempt S d key len mdata tr n).1 ≠ S.MBError.TRY_AGAIN →
      DB.FindLongestPrefix S fuel h key len mdata tr =
          .ok (DB.FindLongestPrefix.attempt S d key len mdata tr n) ∧
        (DB.FindLongestPrefix.attempt S d key len mdata tr n).2.2.countP Call.isLookup =
          tr.countP Call.isLookup + (n + 1)) ∧
    (mdata.match_len < len →
      DB.FindPrefix S h key len mdata tr =
        .ok ((S.env tr (.dictFindPrefix d (key.add mdata.match_len) (len - mdata.match_len)
              mdata)).rval,
          (S.env tr (.dictFindPrefix d (key.add mdata.match_len) (len - mdata.match_len)
              mdata)).mdata,
          tr ++ [.dictFindPrefix d (key.add mdata.match_len) (len - mdata.match_len) mdata]) ∧
      ((S.env tr (.dictFindPrefix d (key.add mdata.match_len) (len - mdata.match_len)
          mdata)).rval = S.MBError.TRY_AGAIN →
        DB.FindPrefix S h key len mdata tr =
          .ok (S.MBError.TRY_AGAIN,
            (S.env tr (.dictFindPrefix d (key.add mdata.match_len) (len - mdata.match_len)
              mdata)).mdata,
            tr ++ [.dictFindPrefix d (key.add mdata.match_len) (len - mdata.match_len)
              mdata]))) := by
  refine ⟨fun n hfuel hagain hfinal => ⟨?_, ?_, ?_⟩, fun n hfuel hagain hfinal => ⟨?_, ?_⟩,
    fun hlt => ?_⟩
  · have hrun := find_retry_run S d key len n fuel (Dict.Find S d key len mdata tr) hfuel hagain
      hfinal
    simp only [DB.Find, hopen, hsync, hdict, hlf, hrun, DB.Find.attempt]
    simp
    split <;> rfl
  · have hc := find_run_count S d key len Call.isLookup (fun _ => rfl) rfl n
      (Dict.Find S d key len mdata tr)
    rw [DB.Find.attempt, hc]
    simp [Dict.Find, perform, Call.isLookup]
    omega
  · have hc := find_run_count S d key len (Call.isLookupOf d key len)
      (fun _ => by simp [Call.isLookupOf]) rfl n (Dict.Find S d key len mdata tr)
    rw [DB.Find.attempt, hc]
    simp [Dict.Find, perform, Call.isLookupOf]
    omega
  · have hrun := findLongestPrefix_retry_run S d key len n fuel
      (Dict.FindPrefix S d key len { mdata with match_len := 0 } tr) hfuel hagain hfinal
    simp only [DB.FindLongestPrefix, hopen, hsync, hdict, hlf, hrun, DB.FindLongestPrefix.attempt]
    simp
  · have hc := findLongestPrefix_run_count S d key len Call.isLookup (fun _ => rfl) rfl n
      (Dict.FindPrefix S d key len { mdata with match_len := 0 } tr)
    rw [DB.FindLongestPrefix.attempt, hc]
    simp [Dict.FindPrefix, perform, Call.isLookup]
    omega
  · have hcall : DB.FindPrefix S h key len mdata tr =
        .ok ((S.env tr (.dictFindPrefix d (key.add mdata.match_len) (len - mdata.match_len)
              mdata)).rval,
          (S.env tr (.dictFindPrefix d (key.add mdata.match_len) (len - mdata.match_len)
              mdata)).mdata,
          tr ++ [.dictFindPrefix d (key.add mdata.match_len) (len - mdata.match_len) mdata]) := by
      simp [DB.FindPrefix, hopen, hsync, hdict, Dict.FindPrefix, perform, not_le.mpr hlt]
    exact ⟨hcall, fun hta => by rw [hcall, hta]⟩

/-- Witness for C13: the first lookup is aborted, the second succeeds; `Find` makes
two lookups and returns `SUCCESS` with `match_len = 3`. -/
theorem lookups_retry_until_settled_witness :
    DB.Find busySys 5 (openHandle 0 none) keyAbc 3 emptyData [] =
        .ok (0, { (abortedLookup emptyData).mdata with match_len := 3 },
          [.dictFind (testDict 0) keyAbc 3 emptyData, .nanosleep,
            .dictFind (testDict 0) keyAbc 3 (abortedLookup emptyData).mdata]) ∧
      (DB.Find.attempt busySys (testDict 0) keyAbc 3 emptyData [] 1).2.2.countP Call.isLookup =
        ([] : Trace).countP Call.isLookup + (1 + 1) := by
  have hw := (lookups_retry_until_settled busySys 5 (openHandle 0 none) (testDict 0) keyAbc 3
    emptyData [] (by decide) (by decide) (by decide) (by decide)).1 1 (by decide) (by decide)
    (by decide)
  exact ⟨hw.1.trans (by decide), hw.2.1⟩

/-- C14, as stated, fails for `DB::Find`: when the first lookup is aborted with
`TRY_AGAIN` after writing into the buffer, the retry of `Find` passes that very
buffer to the dictionary again, not a cleared one; the retry of
`FindLongestPrefix` passes the cleared buffer. -/
theorem find_retry_passes_aborted_buffer :
    DB.Find busySys 5 (openHandle 0 none) keyAbc 3 emptyData [] =
      .ok (0, { (abortedLookup emptyData).mdata with match_len := 3 },
        [.dictFind (testDict 0) keyAbc 3 emptyData, .nanosleep,
          .dictFind (testDict 0) keyAbc 3 (abortedLookup emptyData).mdata]) ∧
    (abortedLookup emptyData).mdata ≠ busySys.MBData_Clear (abortedLookup emptyData).mdata ∧
    DB.FindLongestPrefix busySys 5 (openHandle 0 none) keyAbc 3 emptyData [] =
      .ok (0, emptyData,
        [.dictFindPrefix (testDict 0) keyAbc 3 emptyData, .nanosleep,
          .dictFindPrefix (testDict 0) keyAbc 3
            (busySys.MBData_Clear (abortedLookup emptyData).mdata)]) := by
  decide

/-- The trace after attempt `n` of `Find`: the first lookup and `n` retries. -/
theorem find_attempt_trace (S : Sys) (d : Dict) (key : CharPtr) (len : Int) (mdata : MBData)
    (tr : Trace) :
    ∀ n, (DB.Find.attempt S d key len mdata tr n).2.2 =
      tr ++ .dictFind d key len mdata :: DB.Find.retried S d key len mdata tr n
  | 0 => by simp [DB.Find.attempt, DB.Find.retried, Dict.Find, perform]
  | n + 1 => by
    have ih := find_attempt_trace S d key len mdata tr n
    have hstep : DB.Find.attempt S d key len mdata tr (n + 1) =
        DB.Find.again S d key len (DB.Find.attempt S d key len mdata tr n) := by
      simp only [DB.Find.attempt, Function.iterate_succ_apply']
    rw [hstep]
    simp [DB.Find.again, Dict.Find, perform, ih, DB.Find.retried]

/-- The trace after attempt `n` of `FindLongestPrefix`: the first lookup and `n`
retries. -/
theorem findLongestPrefix_attempt_trace (S : Sys) (d : Dict) (key : CharPtr) (len : Int)
    (data : MBData) (tr : Trace) :
    ∀ n, (DB.FindLongestPrefix.attempt S d key len data tr n).2.2 =
      tr ++ .dictFindPrefix d key len { data with match_len := 0 } ::
        DB.FindLongestPrefix.retried S d key len data tr n
  | 0 => by
    simp [DB.FindLongestPrefix.attempt, DB.FindLongestPrefix.retried, Dict.FindPrefix, perform]
  | n + 1 => by
    have ih := findLongestPrefix_attempt_trace S d key len data tr n
    have hstep : DB.FindLongestPrefix.attempt S d key len data tr (n + 1) =
        DB.FindLongestPrefix.again S d key len
          (DB.FindLongestPrefix.attempt S d key len data tr n) := by
      simp only [DB.FindLongestPrefix.attempt, Function.iterate_succ_apply']
    rw [hstep]
    simp [DB.FindLongestPrefix.again, Dict.FindPrefix, perform, ih,
      DB.FindLongestPrefix.retried]

/-- C14, amended: the lock-free build, an open handle that is not in
`ASYNC_WRITER_MODE`, and attempt `n` the first whose result is not `TRY_AGAIN`.
The calls of `FindLongestPrefix` are the first lookup and then, for each aborted
attempt, a sleep and a lookup that is given the cleared buffer of that attempt.
The calls of `Find` are the first lookup and then, for each aborted attempt, a
sleep and a lookup that is given the buffer as that attempt left it. -/
theorem retried_lookup_buffers (S : Sys) (fuel : Nat) (h : DB) (d : Dict) (key : CharPtr)
    (len : Int) (mdata : MBData) (tr : Trace)
    (hlf : S.LOCK_FREE = true)
    (hopen : h.status = S.MBError.SUCCESS)
    (hsync : flagSet h.options S.CONSTS.ASYNC_WRITER_MODE = false)
    (hdict : h.dict = some d) :
    (∀ n, n ≤ fuel →
      (∀ i < n, (DB.FindLongestPrefix.attempt S d key len mdata tr i).1 =
        S.MBError.TRY_AGAIN) →
      (DB.FindLongestPrefix.attempt S d key len mdata tr n).1 ≠ S.MBError.TRY_AGAIN →
      (DB.FindLongestPrefix S fuel h key len mdata tr).map (fun p => p.2.2) =
        .ok (tr ++ .dictFindPrefix d key len { mdata with match_len := 0 } ::
          DB.FindLongestPrefix.retried S d key len mdata tr n)) ∧
    (∀ n, n ≤ fuel →
      (∀ i < n, (DB.Find.attempt S d key len mdata tr i).1 = S.MBError.TRY_AGAIN) →
      (DB.Find.attempt S d key len mdata tr n).1 ≠ S.MBError.TRY_AGAIN →
      (DB.Find S fuel h key len mdata tr).map (fun p => p.2.2) =
        .ok (tr ++ .dictFind d key len mdata :: DB.Find.retried S d key len mdata tr n)) := by
  refine ⟨fun n hfuel hagain hfinal => ?_, fun n hfuel hagain hfinal => ?_⟩
  · have hrun := findLongestPrefix_retry_run S d key len n fuel
      (Dict.FindPrefix S d key len { mdata with match_len := 0 } tr) hfuel hagain hfinal
    have htrace := findLongestPrefix_attempt_trace S d key len mdata tr n
    simp only [DB.FindLongestPrefix.attempt] at htrace
    simp only [DB.FindLongestPrefix, hopen, hsync, hdict, hlf, hrun]
    simp [Except.map, htrace]
  · have hrun := find_retry_run S d key len n fuel (Dict.Find S d key len mdata tr) hfuel hagain
      hfinal
    have htrace := find_attempt_trace S d key len mdata tr n
    simp only [DB.Find.attempt] at htrace
    simp only [DB.Find, hopen, hsync, hdict, hlf, hrun]
    simp
    split <;> simp [Except.map, htrace]

/-- Witness for the amended C14: one aborted attempt of `FindLongestPrefix`. -/
theorem retried_lookup_buffers_witness :
    (DB.FindLongestPrefix busySys 5 (openHandle 0 none) keyAbc 3 emptyData []).map
        (fun p => p.2.2) =
      .ok ([] ++ .dictFindPrefix (testDict 0) keyAbc 3 { emptyData with match_len := 0 } ::
        DB.FindLongestPrefix.retried busySys (testDict 0) keyAbc 3 emptyData [] 1) :=
  (retried_lookup_buffers busySys 5 (openHandle 0 none) (testDict 0) keyAbc 3 emptyData []
    (by decide) (by decide) (by decide) (by decide)).1 1 (by decide) (by decide) (by decide)

end mabain
